import Mathlib

/-!
# Verification of the xbrl-extractor financial-statement pipeline

Shallow embedding, in Lean 4, of the parts of the `sasakiy84/xbrl-extractor`
repository that the frozen claims C1–C10 are about:

* the `AccountingItem` tree model and the statement extractors
  (`BSConcept`, `PLConcept`, `CFConcept`) of `src/xbrl_utils.py`;
* context selection (`get_context_used_in_concept`, `is_standard_context`,
  `FinancialStatementConcept.__init__`) of `src/xbrl_utils.py`;
* the unique-fact lookup and recursive item extraction of
  `FinancialStatementConcept` in `src/xbrl_utils.py`;
* the duration classification and deduplication of the two aggregator
  generations (`src/extract_financial_statements_from_xbrl.py` and
  `src/extract_financial_statements_from_xbrl_v2.py`);
* the per-company filing loop of `process_company_folder`
  (`src/extract_financial_statements_from_xbrl_v2.py`);
* the "latest annual" summary pruning of `src/aggregate_company_metadata.py`.

Modelling conventions, applied throughout:

* Python `datetime` values are modelled by a `(year, month, day)` record with
  the lexicographic comparison Python uses (sub-day precision is never
  relevant to a claim, all compared datetimes in the analysed code differ at
  day granularity or are equal).
* Python `float` fact values are modelled by `Int`: no analysed code path
  performs arithmetic on values beyond copying them, so the carrier is opaque.
* Python exceptions are modelled with `Except`: each `raise` site becomes a
  distinct error constructor, and a loop whose body can raise becomes a
  fail-fast `Except`-valued recursion, matching the abort-on-raise control
  flow of the source.
* Python `dict` (insertion ordered) is modelled by an association list that
  appends new keys at the end and updates existing keys in place.
* Python `set` values are modelled by deduplicated lists; theorems about them
  are stated up to membership, never up to order.
* The recursion of `_extract_items` follows the XBRL relationship graph and
  in Python terminates only because real taxonomies are acyclic; the model
  adds an explicit `fuel` argument, with exhaustion a distinct error.  On any
  input on which Python terminates the two agree for every sufficiently large
  fuel.
-/

namespace Xbrl

/-! ## Dates

Python `datetime` restricted to what the analysed code observes: the
`year/month/day` components and the lexicographic order. -/

structure DateTime where
  year : Int
  month : Int
  day : Int
deriving DecidableEq, Repr

/-- Python `datetime` comparison `a < b`, lexicographic on components. -/
def DateTime.ltb (a b : DateTime) : Bool :=
  a.year < b.year ||
    (a.year == b.year && (a.month < b.month ||
      (a.month == b.month && a.day < b.day)))

/-- Python `datetime` comparison `a <= b`. -/
def DateTime.leb (a b : DateTime) : Bool :=
  a.ltb b || a == b

/-! ## The AccountingItem tree (`src/xbrl_utils.py`, class `AccountingItem`)

The pydantic model carries six name/label variants (`name`, `nameJa`,
`nameEn`, `nameDetail`, `nameDetailJa`, `nameDetailEn`); no code analysed by
a claim branches on the localized variants, so the model keeps the single
`name` field (the placeholder marker and selection logic only read it). -/

inductive Balance where
  | debit
  | credit
deriving DecidableEq, Repr

inductive Item where
  | mk : (name : String) → (value : Int) → (qname : String) →
      (balance : Option Balance) → (weightInParent : Option Int) →
      (orderInParent : Option Int) → (items : List Item) → Item

def Item.name : Item → String
  | .mk n _ _ _ _ _ _ => n

def Item.value : Item → Int
  | .mk _ v _ _ _ _ _ => v

def Item.qname : Item → String
  | .mk _ _ q _ _ _ _ => q

def Item.balance : Item → Option Balance
  | .mk _ _ _ b _ _ _ => b

def Item.items : Item → List Item
  | .mk _ _ _ _ _ _ is => is

/-- Rebuild an item with a new child list (used by the summary pruning). -/
def Item.withItems : Item → List Item → Item
  | .mk n v q b w o _, is => .mk n v q b w o is

mutual
/-- Preorder (depth-first, node before children, children in list order)
enumeration of a subtree: the traversal order of both
`_get_qname_item_recursively` and `_is_decendant_items_balance_all_same`. -/
def subtreeItems : Item → List Item
  | .mk n v q b w o is => .mk n v q b w o is :: subtreeItemsList is

def subtreeItemsList : List Item → List Item
  | [] => []
  | c :: cs => subtreeItems c ++ subtreeItemsList cs
end

/-! ## `calc_month_duration`
(`src/extract_financial_statements_from_xbrl_v2.py`, lines 156–168; the same
function appears verbatim in `src/extract_financial_statements_from_xbrl.py`,
lines 457–469). -/

def calc_month_duration (from_month to_month : Int) : Int :=
  if from_month == to_month then 0
  else if from_month < to_month then to_month - from_month
  else 12 - from_month + to_month

/-! ## The XBRL document model (external collaborator contract)

`src/xbrl_utils.py` consumes an arelle `ModelXbrl`.  The embedding keeps the
parts the analysed code reads: facts (bound to a concept qname and a context
id, with a typed value `xValue`, a string value `sValue`, a nil flag and a
unit id), contexts (identified by id, carrying the instant / start / end
dates the extractors read), concept metadata (qname, balance, two labels)
and the parent→child summation-item relationships of one (arcrole, linkrole)
pair, in document order. -/

structure Fact where
  qname : String
  contextId : String
  xValue : Int
  sValue : String
  isNil : Bool
  unitId : String
deriving DecidableEq, Repr

structure Ctx where
  id : String
  instantDate : DateTime
  startDate : DateTime
  endDate : DateTime
deriving DecidableEq, Repr

structure ConceptMeta where
  qname : String
  balance : Option Balance
  labelJa : String
  labelEn : String
deriving DecidableEq, Repr

structure Rel where
  parent : String
  child : String
  weight : Int
  order : Int
deriving DecidableEq, Repr

structure XbrlModel where
  facts : List Fact
  contexts : List Ctx
  concepts : List ConceptMeta
  rels : List Rel
deriving Repr

/-- `fact.context` resolved through the model's context table. -/
def XbrlModel.contextOf (m : XbrlModel) (f : Fact) : Option Ctx :=
  m.contexts.find? (fun c => c.id == f.contextId)

/-- The relationships out of `parent_concept`, in document order:
`_get_to_child_relationship` (src/xbrl_utils.py lines 367–372). -/
def XbrlModel.childRels (m : XbrlModel) (parentQname : String) : List Rel :=
  m.rels.filter (fun r => r.parent == parentQname)

/-! ## Context selection (`src/xbrl_utils.py` lines 201–341)

`is_consolidated_fact` tests the absence of the `_NonConsolidatedMember`
marker in the fact's context id; `is_standard_context` tests membership of
the context id in the 72-element product list `STANDARD_CONTEXT_ID`. -/

/-- `needle in haystack` on Python strings (substring containment). -/
def strContains (haystack needle : String) : Bool :=
  haystack.data.tails.any (fun t => needle.data.isPrefixOf t)

def is_consolidated_fact (f : Fact) : Bool :=
  !(strContains f.contextId "_NonConsolidatedMember")

def STANDARD_CONTEXT_ID_FIRST_ITEM : List String :=
  ["CurrentYear", "Interim", "Prior1Year", "Prior1Interim", "Prior2Year",
   "Prior2Interim", "Prior3Year", "Prior3Interim", "Prior4Year",
   "Prior4Interim", "Prior5Year", "Prior5Interim", "Prior6Year",
   "Prior6Interim", "Prior7Year", "Prior7Interim", "Prior8Year",
   "Prior8Interim"]

def STANDARD_CONTEXT_ID_SECOND_ITEM : List String :=
  ["Instant", "Duration"]

def STANDARD_CONTEXT_ID_THIRD_ITEM : List String :=
  ["", "_NonConsolidatedMember"]

/-- The `itertools.product`-built list of standard context identifiers. -/
def STANDARD_CONTEXT_ID : List String :=
  STANDARD_CONTEXT_ID_FIRST_ITEM.flatMap (fun first =>
    STANDARD_CONTEXT_ID_SECOND_ITEM.flatMap (fun second =>
      STANDARD_CONTEXT_ID_THIRD_ITEM.map (fun third =>
        first ++ second ++ third)))

def is_standard_context (contextId : String) : Bool :=
  STANDARD_CONTEXT_ID.contains contextId

/-- `get_context_used_in_concept` (src/xbrl_utils.py lines 258–270): the
contexts of the concept's facts, restricted to the requested consolidation
scope and to standard context ids.  The Python function accumulates them in
a `set`; the model keeps the context ids as a deduplicated list and every
theorem about it is stated up to membership. -/
def get_context_used_in_concept (m : XbrlModel) (conceptQname : String)
    (consolidated : Bool) : List String :=
  ((m.facts.filter (fun f =>
      f.qname == conceptQname &&
      is_consolidated_fact f == consolidated &&
      is_standard_context f.contextId)).map Fact.contextId).dedup

inductive XErr where
  /-- `raise ValueError(...)`, with the message's identifying prefix. -/
  | valueError (msg : String)
  /-- `facts[0]` on an empty list (`IndexError` in Python). -/
  | indexError
  /-- attribute access on `None` (`AttributeError` in Python). -/
  | attributeError
  /-- pydantic `ValidationError` (a required field received `None`). -/
  | validationError
  /-- model-only: recursion fuel exhausted (Python recurses unboundedly). -/
  | outOfFuel
  /-- Python `KeyError` (missing dict key). -/
  | keyError
deriving DecidableEq, Repr

/-- The context-selection part of `FinancialStatementConcept.__init__`
(src/xbrl_utils.py lines 291–341): raise if no root concept is given, else
intersect the per-root context sets.  (The Python intersection folds `&` over
Python sets starting from the first root's set; the model folds
`List.filter (· ∈ next)` over the deduplicated lists, which has exactly the
same membership.) -/
def concept_contexts (m : XbrlModel) (rootQnames : List String)
    (consolidated : Bool) : Except XErr (List String) :=
  match rootQnames with
  | [] => .error (.valueError "Root concept should have at least 1 concept.")
  | r :: rs =>
    .ok (rs.foldl
      (fun acc root =>
        acc.filter (fun c => (get_context_used_in_concept m root consolidated).contains c))
      (get_context_used_in_concept m r consolidated))

/-! ## Unique-fact lookup and recursive item extraction
(`src/xbrl_utils.py` lines 350–432). -/

/-- `any(fact_a.sValue != fact_b.sValue for fact_a, fact_b in combinations(facts, 2))`:
the loop body of `_get_unique_fact_by_concept_and_context` raises exactly
when some pair of candidate facts disagrees on `sValue`. -/
def hasDiffPair : List Fact → Bool
  | [] => false
  | f :: rest => rest.any (fun g => f.sValue != g.sValue) || hasDiffPair rest

/-- `_get_unique_fact_by_concept_and_context` (src/xbrl_utils.py lines
350–365): filter the concept's facts to the context; a single match is
returned; several matches raise iff two disagree on `sValue`, else the first
is returned; zero matches fall through to `facts[0]`, an `IndexError`. -/
def get_unique_fact (m : XbrlModel) (conceptQname : String) (contextId : String) :
    Except XErr Fact :=
  let facts := m.facts.filter
    (fun f => f.qname == conceptQname && f.contextId == contextId)
  if facts.length == 1 then
    match facts with
    | f :: _ => .ok f
    | [] => .error .indexError
  else if hasDiffPair facts then
    .error (.valueError "Multiple facts with different values are found.")
  else
    match facts with
    | f :: _ => .ok f
    | [] => .error .indexError

/-- The body of `_get_unique_fact_by_concept_and_context` as a function of
the already-filtered candidate list (`get_unique_fact` is definitionally
this applied to the filter; used to state C10). -/
def get_unique_fact_of_candidates (facts : List Fact) : Except XErr Fact :=
  if facts.length == 1 then
    match facts with
    | f :: _ => .ok f
    | [] => .error .indexError
  else if hasDiffPair facts then
    .error (.valueError "Multiple facts with different values are found.")
  else
    match facts with
    | f :: _ => .ok f
    | [] => .error .indexError

/-- Concept metadata lookup (`parent_fact.concept` attributes). -/
def XbrlModel.conceptOf (m : XbrlModel) (q : String) : Option ConceptMeta :=
  m.concepts.find? (fun c => c.qname == q)

/-- `_extract_items` (src/xbrl_utils.py lines 386–432): look up the unique
fact of `(parent_concept, context)` (any lookup failure propagates), return
`none` when the fact is nil, otherwise build the `AccountingItem` with the
concept's label and balance and the relationship's weight/order, and recurse
into the children given by the summation-item relationships in document
order, dropping `none` children.  `fuel` bounds the graph recursion (see the
module comment); the recursion is structural on `fuel` so the function
computes by reduction. -/
def extract_items (m : XbrlModel) : Nat → String → String → Option Rel →
    Except XErr (Option Item)
  | 0, _, _, _ => .error .outOfFuel
  | fuel + 1, parentQname, contextId, rel => do
    let parentFact ← get_unique_fact m parentQname contextId
    if parentFact.isNil then
      return none
    let meta := match m.conceptOf parentQname with
      | some c => c
      | none => ⟨parentQname, none, "", ""⟩
    let childResults ← (m.childRels parentQname).mapM
      (fun r => extract_items m fuel r.child contextId (some r))
    return some (.mk meta.labelJa parentFact.xValue parentQname meta.balance
      (rel.map Rel.weight) (rel.map Rel.order) (childResults.filterMap id))

/-! ## Balance-sheet extraction (`src/xbrl_utils.py`, class `BSConcept`) -/

structure BSInstance where
  assets : Item
  liabilities : Item
  net_assets : Item
  consolidated : Bool
  period : DateTime
  unit : String
  roleType : String

/-- One iteration of the context loop of `BSConcept.extract_instances`
(src/xbrl_utils.py lines 539–564): extract the debit (assets) tree and the
credit tree, fetch the debit root fact for the unit, then demand exactly two
children under the credit root — `raise ValueError` otherwise — and assign
them positionally.  A `None` credit tree hits `credit_item.items`
(`AttributeError`); a `None` assets tree fails pydantic validation of
`BSInstance`. -/
def bs_extract_one (m : XbrlModel) (fuel : Nat)
    (rootDebitQname rootCreditQname : String) (consolidated : Bool)
    (roleType : String) (context : Ctx) : Except XErr BSInstance := do
  let assets ← extract_items m fuel rootDebitQname context.id none
  let credit_item ← extract_items m fuel rootCreditQname context.id none
  let debit_root_fact ← get_unique_fact m rootDebitQname context.id
  match credit_item with
  | none => throw .attributeError
  | some credit =>
    match credit.items with
    | [liabilities, net_assets] =>
      match assets with
      | none => throw .validationError
      | some assets =>
        return { assets := assets, liabilities := liabilities,
                 net_assets := net_assets, consolidated := consolidated,
                 period := context.instantDate,
                 unit := debit_root_fact.unitId, roleType := roleType }
    | _ => throw (.valueError "Credit item should have 2 items.")

/-- `BSConcept.extract_instances` (src/xbrl_utils.py lines 531–566): the
`for context in self.contexts` loop appending one instance per context; a
raise anywhere aborts the whole call, which `Except`-`mapM` reproduces.
(The `len(self.root_concepts) == 0` early return is unreachable: the
constructor already raised unless there are exactly two root concepts.) -/
def bs_extract_instances (m : XbrlModel) (fuel : Nat)
    (rootDebitQname rootCreditQname : String) (consolidated : Bool)
    (roleType : String) (contexts : List Ctx) : Except XErr (List BSInstance) :=
  contexts.mapM (bs_extract_one m fuel rootDebitQname rootCreditQname
    consolidated roleType)

/-! ## Profit-and-loss extraction (`src/xbrl_utils.py`, class `PLConcept`) -/

mutual
/-- `PLConcept._is_decendant_items_balance_all_same` (src/xbrl_utils.py lines
761–773): the item itself and every descendant carry the given balance. -/
def is_decendant_items_balance_all_same (balance : Balance) : Item → Bool
  | .mk _ _ _ b _ _ is =>
    if b != some balance then false
    else is_decendant_items_balance_all_same_list balance is

/-- The `all(...)` over the children in the above. -/
def is_decendant_items_balance_all_same_list (balance : Balance) :
    List Item → Bool
  | [] => true
  | c :: cs => is_decendant_items_balance_all_same balance c &&
      is_decendant_items_balance_all_same_list balance cs
end

mutual
/-- `PLConcept._get_qname_item_recursively` (src/xbrl_utils.py lines
775–786): depth-first search, current node first, then the children in
order; the first item whose qname is in the list wins. -/
def get_qname_item_recursively (qname : List String) : Item → Option Item
  | .mk n v q b w o is =>
    if qname.contains q then some (.mk n v q b w o is)
    else get_qname_item_recursively_list qname is

/-- The child loop of `_get_qname_item_recursively`. -/
def get_qname_item_recursively_list (qname : List String) :
    List Item → Option Item
  | [] => none
  | c :: cs =>
    match get_qname_item_recursively qname c with
    | some result => some result
    | none => get_qname_item_recursively_list qname cs
end

def operating_income_qnames : List String :=
  ["jppfs_cor:OperatingIncome", "jpigp_cor:OperatingProfitLossIFRS"]

def ordinary_income_qnames : List String :=
  ["jppfs_cor:OrdinaryIncome"]

def ordinary_income_bnk_qnames : List String :=
  ["jppfs_cor:OrdinaryIncomeBNK", "jppfs_cor:OrdinaryExpensesBNK"]

/-- `PLConcept._extract_ordinaly_income_bnk` (src/xbrl_utils.py lines
814–844): find an `OrdinaryIncome` item; promote it only if a bank-specific
qname also occurs in its subtree. -/
def extract_ordinaly_income_bnk (parent_item : Item) : Option Item :=
  match get_qname_item_recursively ordinary_income_qnames parent_item with
  | none => none
  | some operating_income_item =>
    match get_qname_item_recursively ordinary_income_bnk_qnames
        operating_income_item with
    | none => none
    | some _ => some operating_income_item

/-- `PLConcept._extract_operating_income` (src/xbrl_utils.py lines 788–812):
qname search for operating income through the whole subtree; if absent, the
bank fallback. -/
def extract_operating_income (parent_item : Item) : Option Item :=
  match get_qname_item_recursively operating_income_qnames parent_item with
  | some operating_income_item => some operating_income_item
  | none => extract_ordinaly_income_bnk parent_item

mutual
/-- `extract_expenses_and_net_sales_recursively`, the inner function of
`PLConcept._extract_expenses_and_net_sales` (src/xbrl_utils.py lines
846–878): an all-debit subtree is appended to `expenses`, an all-credit
subtree to `net_sales`, and a mixed subtree is split by recursing into its
children. -/
def extract_expenses_and_net_sales_recursively (current_item : Item)
    (expenses net_sales : List Item) : List Item × List Item :=
  match current_item with
  | .mk n v q b w o is =>
    if is_decendant_items_balance_all_same .debit (.mk n v q b w o is) then
      (expenses ++ [.mk n v q b w o is], net_sales)
    else if is_decendant_items_balance_all_same .credit (.mk n v q b w o is) then
      (expenses, net_sales ++ [.mk n v q b w o is])
    else
      extract_expenses_and_net_sales_list is expenses net_sales

/-- The `for item in current_item.items` loop threading the two lists. -/
def extract_expenses_and_net_sales_list (items : List Item)
    (expenses net_sales : List Item) : List Item × List Item :=
  match items with
  | [] => (expenses, net_sales)
  | c :: cs =>
    let acc := extract_expenses_and_net_sales_recursively c expenses net_sales
    extract_expenses_and_net_sales_list cs acc.1 acc.2
end

/-- `PLConcept._extract_expenses_and_net_sales` (src/xbrl_utils.py lines
846–878): run the recursion from the operating-income item with two empty
accumulators. -/
def extract_expenses_and_net_sales (operating_income : Item) :
    List Item × List Item :=
  extract_expenses_and_net_sales_recursively operating_income [] []

structure PLInstance where
  operatingIncome : Item
  netSales : List Item
  expenses : List Item
  profitAndLoss : Item
  consolidated : Bool
  durationFrom : DateTime
  durationTo : DateTime
  unit : String
  roleType : String

/-- One iteration of the context loop of `PLConcept.extract_instances`
(src/xbrl_utils.py lines 880–920). -/
def pl_extract_one (m : XbrlModel) (fuel : Nat) (plRootQname : String)
    (consolidated : Bool) (roleType : String) (context : Ctx) :
    Except XErr PLInstance := do
  let pl_root_fact ← get_unique_fact m plRootQname context.id
  let profit_and_loss_item ← extract_items m fuel plRootQname context.id none
  match profit_and_loss_item with
  | none => throw (.valueError "Profit and loss item should not be None.")
  | some pl_item =>
    match extract_operating_income pl_item with
    | none => throw (.valueError "Operating income item should not be None.")
    | some operating_income_item =>
      let pair := extract_expenses_and_net_sales operating_income_item
      return { operatingIncome := operating_income_item,
               expenses := pair.1, netSales := pair.2,
               profitAndLoss := pl_item, consolidated := consolidated,
               durationFrom := context.startDate,
               durationTo := context.endDate,
               unit := pl_root_fact.unitId, roleType := roleType }

/-- `PLConcept.extract_instances`: the `for context in self.contexts` loop;
a raise anywhere aborts the whole call. -/
def pl_extract_instances (m : XbrlModel) (fuel : Nat) (plRootQname : String)
    (consolidated : Bool) (roleType : String) (contexts : List Ctx) :
    Except XErr (List PLInstance) :=
  contexts.mapM (pl_extract_one m fuel plRootQname consolidated roleType)

/-! ## Cash-flow extraction (`src/xbrl_utils.py`, class `CFConcept`) -/

structure CFInstance where
  operating : Item
  investing : Item
  financing : Item
  consolidated : Bool
  durationFrom : DateTime
  durationTo : DateTime
  unit : String
  roleType : String

/-- `FinancialStatementConcept.search_unique_concept_by_label`
(src/xbrl_utils.py lines 454–475): collect (as a set) the concepts one of
whose labels contains one of the words; exactly one → it, none → `None`,
several → `raise ValueError`. -/
def search_unique_concept_by_label (concepts : List ConceptMeta)
    (words_in_label : List String) : Except XErr (Option ConceptMeta) :=
  let searched_concepts := (concepts.filter (fun c => words_in_label.any
    (fun w => strContains c.labelJa w || strContains c.labelEn w))).dedup
  match searched_concepts with
  | [c] => .ok (some c)
  | [] => .ok none
  | _ => .error (.valueError "Multiple concepts are found.")

/-- The section-concept identification of `CFConcept.__init__`
(src/xbrl_utils.py lines 1007–1062): demand exactly one root concept, then
search the root's children by label for the three activity sections, each of
which may be absent (`None`). -/
def cf_init (m : XbrlModel) (root_concepts : List String) :
    Except XErr (Option String × Option String × Option String) := do
  match root_concepts with
  | [root] =>
    let main_concepts := (m.childRels root).filterMap
      (fun r => m.conceptOf r.child)
    let op ← search_unique_concept_by_label main_concepts ["営業活動", "operating"]
    let inv ← search_unique_concept_by_label main_concepts ["投資活動", "investing"]
    let fin ← search_unique_concept_by_label main_concepts ["財務活動", "financing"]
    return (op.map ConceptMeta.qname, inv.map ConceptMeta.qname,
      fin.map ConceptMeta.qname)
  | _ => throw (.valueError "Root concept should have at least 1 concept.")

/-- The placeholder `AccountingItem` of `CFConcept.extract_instances`
(src/xbrl_utils.py lines 1072–1085): zero value, `N/A` marker name and
qname, no children, no balance. -/
def placeholder_accounting_item : Item :=
  .mk "N/A" 0 "N/A" none none none []

/-- The `operating_item = None; if self.root_X_concept is not None:
operating_item = self._extract_items(...)` pattern of
`CFConcept.extract_instances`, one section at a time: an unidentified
section concept contributes `None`, an identified one its extracted tree
(or a propagated exception). -/
def cf_section_extract (m : XbrlModel) (fuel : Nat) (root : Option String)
    (contextId : String) : Except XErr (Option Item) :=
  match root with
  | some q => extract_items m fuel q contextId none
  | none => pure none

/-- One iteration of the context loop of `CFConcept.extract_instances`
(src/xbrl_utils.py lines 1087–1129): each section concept that is absent, or
whose extracted tree is `None` (nil fact), is replaced by the placeholder;
then the unit is read from the operating root's fact — when the operating
concept is `None` this is `None.qname`, an `AttributeError`. -/
def cf_extract_one (m : XbrlModel) (fuel : Nat)
    (rootOperating rootInvesting rootFinancing : Option String)
    (consolidated : Bool) (roleType : String) (context : Ctx) :
    Except XErr CFInstance := do
  let operating_item ← cf_section_extract m fuel rootOperating context.id
  let operating_item := operating_item.getD placeholder_accounting_item
  let investing_item ← cf_section_extract m fuel rootInvesting context.id
  let investing_item := investing_item.getD placeholder_accounting_item
  let financing_item ← cf_section_extract m fuel rootFinancing context.id
  let financing_item := financing_item.getD placeholder_accounting_item
  let operating_root_fact ← match rootOperating with
    | some q => get_unique_fact m q context.id
    | none => throw .attributeError
  return { operating := operating_item, investing := investing_item,
           financing := financing_item, consolidated := consolidated,
           durationFrom := context.startDate, durationTo := context.endDate,
           unit := operating_root_fact.unitId, roleType := roleType }

/-- `CFConcept.extract_instances`: the `for context in self.contexts` loop;
a raise anywhere aborts the whole call. -/
def cf_extract_instances (m : XbrlModel) (fuel : Nat)
    (rootOperating rootInvesting rootFinancing : Option String)
    (consolidated : Bool) (roleType : String) (contexts : List Ctx) :
    Except XErr (List CFInstance) :=
  contexts.mapM (cf_extract_one m fuel rootOperating rootInvesting
    rootFinancing consolidated roleType)

/-! ## The v2 aggregator
(`src/extract_financial_statements_from_xbrl_v2.py`, lines 89–352)

The aggregator reads, of each instance, only the duration (PL/CF) or period
(BS), the consolidation flag and `docSubmissionDate`, plus an identifying
payload.  `deduplicate_pl_with_selecting_original_doc` reads
`pl.docSubmissionDate`; the `PLInstance` class declared in
`src/xbrl_utils.py` does not have that field (the v2 script passes
`doc_submission_date=` into `get_pl_concepts`, whose updated definition is
not part of src/).  Modelled from the spec: "each tagged with the owning
document's identifying metadata (submission date, fiscal-year start)" — the
aggregator-side instance slices below carry `docSubmissionDate` and a
`docID` payload. -/

def DateTime.toStr (d : DateTime) : String :=
  toString d.year ++ "-" ++ toString d.month ++ "-" ++ toString d.day

structure PLInstanceV2 where
  durationFrom : DateTime
  durationTo : DateTime
  consolidated : Bool
  docSubmissionDate : DateTime
  docID : String
deriving DecidableEq, Repr

structure BSInstanceV2 where
  period : DateTime
  consolidated : Bool
  docSubmissionDate : DateTime
  docID : String
deriving DecidableEq, Repr

structure CFInstanceV2 where
  durationFrom : DateTime
  durationTo : DateTime
  consolidated : Bool
  docSubmissionDate : DateTime
  docID : String
deriving DecidableEq, Repr

/-- The slice of the v2 `FinancialStatementDocument` (lines 89–106) that
`aggregate_financial_statements` reads: the three instance lists. -/
structure FinancialStatementDocumentV2 where
  pl : List PLInstanceV2
  bs : List BSInstanceV2
  cf : List CFInstanceV2
deriving DecidableEq, Repr

/-- Stable insertion: `x` (an earlier-input element) is placed before the
first already-placed element `y` with `le x y`, so equal-key elements keep
their input order (used by `insertionSort`). -/
def insertSorted (le : α → α → Bool) (x : α) : List α → List α
  | [] => [x]
  | y :: ys => if le x y then x :: y :: ys else y :: insertSorted le x ys

/-- Python's `sorted(..., key=...)` is a stable ascending sort; for a total
preorder every stable sort produces the same output order, so the stable
insertion sort below is observably identical and, being structurally
recursive, computes by reduction. -/
def insertionSort (le : α → α → Bool) : List α → List α
  | [] => []
  | x :: xs => insertSorted le x (insertionSort le xs)

/-- Python `dict` read (first — and only — entry with the key). -/
def dictLookup (d : List (String × α)) (k : String) : Option α :=
  match d with
  | [] => none
  | kv :: rest => if kv.1 == k then some kv.2 else dictLookup rest k

/-- Python `dict` write: replace in place when the key exists, else append
(insertion order). -/
def dictSet (d : List (String × α)) (k : String) (v : α) : List (String × α) :=
  if d.any (fun kv => kv.1 == k) then
    d.map (fun kv => if kv.1 == k then (k, v) else kv)
  else d ++ [(k, v)]

/-- The 14 accumulator lists of `aggregate_financial_statements`
(lines 174–187), named as the Python locals. -/
structure AggLists where
  consolidated_annual_pls : List PLInstanceV2 := []
  consolidated_semianual_pls : List PLInstanceV2 := []
  consolidated_quarterly_pls : List PLInstanceV2 := []
  consolidated_bss : List BSInstanceV2 := []
  consolidated_annual_fcs : List CFInstanceV2 := []
  consolidated_semianual_fcs : List CFInstanceV2 := []
  consolidated_quarterly_fcs : List CFInstanceV2 := []
  nonconsolidated_annual_pls : List PLInstanceV2 := []
  nonconsolidated_semianual_pls : List PLInstanceV2 := []
  nonconsolidated_quarterly_pls : List PLInstanceV2 := []
  nonconsolidated_bss : List BSInstanceV2 := []
  nonconsolidated_annual_fcs : List CFInstanceV2 := []
  nonconsolidated_semianual_fcs : List CFInstanceV2 := []
  nonconsolidated_quarterly_fcs : List CFInstanceV2 := []
deriving DecidableEq, Repr

/-- The body of the `for pl in financial_statements.pl` loop (lines
190–205): bucket by the cyclic month span of the duration, split by the
consolidation flag, drop any other span. -/
def classify_pl (acc : AggLists) (pl : PLInstanceV2) : AggLists :=
  let month_duration := calc_month_duration pl.durationFrom.month pl.durationTo.month
  if month_duration == 0 then
    if pl.consolidated then
      { acc with consolidated_annual_pls := acc.consolidated_annual_pls ++ [pl] }
    else
      { acc with nonconsolidated_annual_pls := acc.nonconsolidated_annual_pls ++ [pl] }
  else if month_duration == 6 then
    if pl.consolidated then
      { acc with consolidated_semianual_pls := acc.consolidated_semianual_pls ++ [pl] }
    else
      { acc with nonconsolidated_semianual_pls := acc.nonconsolidated_semianual_pls ++ [pl] }
  else if month_duration == 3 || month_duration == 9 then
    if pl.consolidated then
      { acc with consolidated_quarterly_pls := acc.consolidated_quarterly_pls ++ [pl] }
    else
      { acc with nonconsolidated_quarterly_pls := acc.nonconsolidated_quarterly_pls ++ [pl] }
  else acc

/-- The body of the `for bs in financial_statements.bs` loop (lines
207–211): split by the consolidation flag only. -/
def classify_bs (acc : AggLists) (bs : BSInstanceV2) : AggLists :=
  if bs.consolidated then
    { acc with consolidated_bss := acc.consolidated_bss ++ [bs] }
  else
    { acc with nonconsolidated_bss := acc.nonconsolidated_bss ++ [bs] }

/-- The body of the `for cf in financial_statements.cf` loop (lines
213–229): same span bucketing as PL. -/
def classify_cf (acc : AggLists) (cf : CFInstanceV2) : AggLists :=
  let month_duration := calc_month_duration cf.durationFrom.month cf.durationTo.month
  if month_duration == 0 then
    if cf.consolidated then
      { acc with consolidated_annual_fcs := acc.consolidated_annual_fcs ++ [cf] }
    else
      { acc with nonconsolidated_annual_fcs := acc.nonconsolidated_annual_fcs ++ [cf] }
  else if month_duration == 6 then
    if cf.consolidated then
      { acc with consolidated_semianual_fcs := acc.consolidated_semianual_fcs ++ [cf] }
    else
      { acc with nonconsolidated_semianual_fcs := acc.nonconsolidated_semianual_fcs ++ [cf] }
  else if month_duration == 3 || month_duration == 9 then
    if cf.consolidated then
      { acc with consolidated_quarterly_fcs := acc.consolidated_quarterly_fcs ++ [cf] }
    else
      { acc with nonconsolidated_quarterly_fcs := acc.nonconsolidated_quarterly_fcs ++ [cf] }
  else acc

/-- One iteration of the outer `for financial_statements in
financial_statements_documents` loop (lines 188–229). -/
def classify_document (acc : AggLists) (d : FinancialStatementDocumentV2) : AggLists :=
  let acc := d.pl.foldl classify_pl acc
  let acc := d.bs.foldl classify_bs acc
  d.cf.foldl classify_cf acc

/-- The classification phase of `aggregate_financial_statements`. -/
def classify_documents (docs : List FinancialStatementDocumentV2) : AggLists :=
  docs.foldl classify_document {}

/-- Common shape of the three v2 dedup helpers
`deduplicate_pl_with_selecting_original_doc`,
`deduplicate_bs_with_selecting_original_doc` and
`deduplicate_cf_with_selecting_original_doc` (lines 234–316), which are
textually identical up to the key function and the sort key; they are
factored here with those as parameters.  The first instance of each key is
kept and replaced only when a later instance has a strictly earlier
`docSubmissionDate`; finally the kept values are sorted (stably, as Python's
`sorted`) ascending by the sort key. -/
def dedup_step (key : α → String) (subDate : α → DateTime)
    (dict : List (String × α)) (x : α) : List (String × α) :=
  match dictLookup dict (key x) with
  | none => dictSet dict (key x) x
  | some old =>
    if (subDate x).ltb (subDate old) then dictSet dict (key x) x
    else dict

def dedup_with_selecting_original_doc (key : α → String)
    (subDate : α → DateTime) (sortLe : α → α → Bool) (xs : List α) : List α :=
  insertionSort sortLe ((xs.foldl (dedup_step key subDate) []).map (fun kv => kv.2))

/-- Invariant of the dedup dict after processing a prefix of the input:
entries are keyed by their value's key, keys are pairwise distinct, and
every processed instance is dominated by a kept entry of its key with a
submission date at most its own. -/
def dedup_invariant (key : α → String) (subDate : α → DateTime)
    (processed : List α) (d : List (String × α)) : Prop :=
  (∀ kv ∈ d, kv.1 = key kv.2 ∧ kv.2 ∈ processed) ∧
  List.Pairwise (fun kv kv' : String × α => kv.1 ≠ kv'.1) d ∧
  (∀ x ∈ processed, ∃ kv ∈ d, kv.1 = key x ∧
    (subDate kv.2).leb (subDate x) = true)

/-- `pl_key` (lines 231–232): `f"{pl.durationFrom}_{pl.durationTo}"`
(`DateTime.toStr` is injective, like `str` on datetimes). -/
def pl_key (pl : PLInstanceV2) : String :=
  pl.durationFrom.toStr ++ "_" ++ pl.durationTo.toStr

def deduplicate_pl_with_selecting_original_doc (pls : List PLInstanceV2) :
    List PLInstanceV2 :=
  dedup_with_selecting_original_doc pl_key PLInstanceV2.docSubmissionDate
    (fun a b => a.durationFrom.leb b.durationFrom) pls

/-- `bs_key` (lines 271–272): the instant date. -/
def bs_key (bs : BSInstanceV2) : String :=
  bs.period.toStr

def deduplicate_bs_with_selecting_original_doc (bss : List BSInstanceV2) :
    List BSInstanceV2 :=
  dedup_with_selecting_original_doc bs_key BSInstanceV2.docSubmissionDate
    (fun a b => a.period.leb b.period) bss

/-- `cf_key` (lines 297–298). -/
def cf_key (cf : CFInstanceV2) : String :=
  cf.durationFrom.toStr ++ "_" ++ cf.durationTo.toStr

def deduplicate_cf_with_selecting_original_doc (fcs : List CFInstanceV2) :
    List CFInstanceV2 :=
  dedup_with_selecting_original_doc cf_key CFInstanceV2.docSubmissionDate
    (fun a b => a.durationFrom.leb b.durationFrom) fcs

/-- The 14 series of the v2 `AggregatedFinancialStatement` (lines 108–124). -/
structure AggregatedFinancialStatement where
  consolidatedYearlyProfitAndLossStatements : List PLInstanceV2
  consolidatedSemiAnnualProfitAndLossStatements : List PLInstanceV2
  consolidatedQuarterlyProfitAndLossStatements : List PLInstanceV2
  consolidatedBalanceSheets : List BSInstanceV2
  consolidatedYearlyCashFlowStatements : List CFInstanceV2
  consolidatedSemiAnnualCashFlowStatements : List CFInstanceV2
  consolidatedQuarterlyCashFlowStatements : List CFInstanceV2
  nonConsolidatedYearlyProfitAndLossStatements : List PLInstanceV2
  nonConsolidatedSemiAnnualProfitAndLossStatements : List PLInstanceV2
  nonConsolidatedQuarterlyProfitAndLossStatements : List PLInstanceV2
  nonConsolidatedBalanceSheets : List BSInstanceV2
  nonConsolidatedYearlyCashFlowStatements : List CFInstanceV2
  nonConsolidatedSemiAnnualCashFlowStatements : List CFInstanceV2
  nonConsolidatedQuarterlyCashFlowStatements : List CFInstanceV2
deriving DecidableEq, Repr

/-- `aggregate_financial_statements` (lines 171–352): classify every
instance of every document into the 14 lists, deduplicate each and return
the result object. -/
def aggregate_financial_statements (docs : List FinancialStatementDocumentV2) :
    AggregatedFinancialStatement :=
  let a := classify_documents docs
  { consolidatedYearlyProfitAndLossStatements :=
      deduplicate_pl_with_selecting_original_doc a.consolidated_annual_pls,
    consolidatedSemiAnnualProfitAndLossStatements :=
      deduplicate_pl_with_selecting_original_doc a.consolidated_semianual_pls,
    consolidatedQuarterlyProfitAndLossStatements :=
      deduplicate_pl_with_selecting_original_doc a.consolidated_quarterly_pls,
    consolidatedBalanceSheets :=
      deduplicate_bs_with_selecting_original_doc a.consolidated_bss,
    consolidatedYearlyCashFlowStatements :=
      deduplicate_cf_with_selecting_original_doc a.consolidated_annual_fcs,
    consolidatedSemiAnnualCashFlowStatements :=
      deduplicate_cf_with_selecting_original_doc a.consolidated_semianual_fcs,
    consolidatedQuarterlyCashFlowStatements :=
      deduplicate_cf_with_selecting_original_doc a.consolidated_quarterly_fcs,
    nonConsolidatedYearlyProfitAndLossStatements :=
      deduplicate_pl_with_selecting_original_doc a.nonconsolidated_annual_pls,
    nonConsolidatedSemiAnnualProfitAndLossStatements :=
      deduplicate_pl_with_selecting_original_doc a.nonconsolidated_semianual_pls,
    nonConsolidatedQuarterlyProfitAndLossStatements :=
      deduplicate_pl_with_selecting_original_doc a.nonconsolidated_quarterly_pls,
    nonConsolidatedBalanceSheets :=
      deduplicate_bs_with_selecting_original_doc a.nonconsolidated_bss,
    nonConsolidatedYearlyCashFlowStatements :=
      deduplicate_cf_with_selecting_original_doc a.nonconsolidated_annual_fcs,
    nonConsolidatedSemiAnnualCashFlowStatements :=
      deduplicate_cf_with_selecting_original_doc a.nonconsolidated_semianual_fcs,
    nonConsolidatedQuarterlyCashFlowStatements :=
      deduplicate_cf_with_selecting_original_doc a.nonconsolidated_quarterly_fcs }

/-! ## The v1 aggregator's deduplication
(`src/extract_financial_statements_from_xbrl.py`, lines 478–613)

The v1 dict is keyed inconsistently: membership is tested with
`pl_key(pl)` (the duration pair) but entries are written and read under
`pl.docId`.  The `else` branch can therefore also raise `KeyError`
(`deduplicated_pls_dict[pl.docId]` and `doc_id_to_doc[...]`), modelled with
`Except`. -/

/-- The slice of the v1 `PL_TYPE` pydantic models that
`deduplicate_pl_with_selecting_original_doc` reads. -/
structure PLv1 where
  docId : String
  DurationFrom : DateTime
  DurationTo : DateTime
deriving DecidableEq, Repr

/-- The slice of the v1 `FinancialStatementDocument` that the dedup's
tie-break reads (`doc_id_to_doc` values). -/
structure FinancialStatementDocumentV1 where
  docId : String
  financialYearStartDate : DateTime
deriving DecidableEq, Repr

def pl_key_v1 (pl : PLv1) : String :=
  pl.DurationFrom.toStr ++ "_" ++ pl.DurationTo.toStr

/-- v1 `deduplicate_pl_with_selecting_original_doc`
(src/extract_financial_statements_from_xbrl.py lines 541–555), verbatim:
test membership with `pl_key(pl)`, but store under `pl.docId`; on the (in
practice unreachable) hit, tie-break on the fiscal-year start date of the
docs looked up through `doc_id_to_doc`. -/
def deduplicate_pl_with_selecting_original_doc_v1
    (doc_id_to_doc : List FinancialStatementDocumentV1) (pls : List PLv1) :
    Except XErr (List PLv1) := do
  let dict ← pls.foldlM (fun (dict : List (String × PLv1)) pl => do
    if (dictLookup dict (pl_key_v1 pl)).isNone then
      return dictSet dict pl.docId pl
    else
      let new_pl_doc ← match doc_id_to_doc.find?
          (fun d => d.docId == pl.docId) with
        | some d => pure d
        | none => throw .keyError
      let cur_pl ← match dictLookup dict pl.docId with
        | some x => pure x
        | none => throw .keyError
      let old_pl_doc ← match doc_id_to_doc.find?
          (fun d => d.docId == cur_pl.docId) with
        | some d => pure d
        | none => throw .keyError
      if new_pl_doc.financialYearStartDate.ltb
          old_pl_doc.financialYearStartDate then
        return dictSet dict pl.docId pl
      else
        return dict) []
  return insertionSort (fun a b => a.DurationFrom.leb b.DurationFrom)
    (dict.map (fun kv => kv.2))

/-! ## The per-company filing loop
(`src/extract_financial_statements_from_xbrl_v2.py`, lines 355–506)

`process_company_folder` iterates the company's filing archives
sequentially; each iteration either appends one `FinancialStatementDocument`
to `company_financial_statements` or raises, in which case the `except`
handler logs the error and executes `break`, leaving the loop.  The model
abstracts one filing's extraction as its outcome (a document or an
exception) and reproduces the loop's control flow over the outcome list. -/

def process_company_filings
    (outcomes : List (Except String FinancialStatementDocumentV2)) :
    List FinancialStatementDocumentV2 :=
  match outcomes with
  | [] => []
  | .ok doc :: rest => doc :: process_company_filings rest
  | .error _ :: _ => []

/-! ## The company summary builder (`src/aggregate_company_metadata.py`)

The script loads one `SimpleCompany` per JSON file (so after parsing, the
per-filing documents, the aggregated series and their item trees are all
distinct objects with no sharing between them), selects the latest annual
document, selects the latest PL/BS/CF instance inside it, and prunes the
grandchildren of the selected instances' top-level trees by mutating the
`AccountingItem` objects **in place** (`first_expense_item.items = []`,
etc.).  Because `latest_pl` and friends alias the instances stored in the
selected per-filing document, the mutation is observable through the
company object afterwards.  The model makes that mutation explicit: the
summary step returns both the `SummarizedCompany` row and the post-state of
the company, in which the selected document's selected instances have been
replaced by their pruned versions — the value-level effect of the in-place
mutation (nothing else in the company aliases those items). -/

/-- The slice of `SimpleFinancialStatementDocument` that the summary loop
reads: document type, submission date and the three instance lists (the
instances reuse the extractor's instance types; the `Simple*` subclasses
only change serialization). -/
structure SummaryDoc where
  docType : String
  submittionDate : DateTime
  pl : List PLInstance
  bs : List BSInstance
  cf : List CFInstance

/-- The slice of `SimpleCompany` the summary loop reads. -/
structure SummaryCompany where
  name : String
  edinetCode : String
  financialStatementDocuments : List SummaryDoc
  aggregatedFinancialStatements : AggregatedFinancialStatement

/-- The `SummarizedCompany` row (lines 116–129), minus the series-count
fields, which only read lengths of the aggregated series. -/
structure SummarizedCompany where
  companyName : String
  edinetCode : String
  latestPL : Option PLInstance
  latestBS : Option BSInstance
  latestCF : Option CFInstance

/-- The latest-annual-document selection loop (lines 160–167).  The index
is tracked because the pruning later mutates the selected document's
instances in place. -/
def select_latest_annual (docs : List SummaryDoc) : Option (Nat × SummaryDoc) :=
  docs.enum.foldl (fun latest (c : Nat × SummaryDoc) =>
    if c.2.docType == "Annual" then
      match latest with
      | none => some c
      | some cur =>
        if cur.2.submittionDate.ltb c.2.submittionDate then some c else cur
    else latest) none

/-- The latest-PL selection chain (lines 189–202): later `durationFrom`
wins, ties broken by later `durationTo`, then by preferring a consolidated
candidate over a non-consolidated incumbent. -/
def select_latest_pl (pls : List PLInstance) : Option (Nat × PLInstance) :=
  match pls with
  | [] => none
  | p0 :: _ =>
    some (pls.enum.foldl (fun (latest : Nat × PLInstance) (c : Nat × PLInstance) =>
      if latest.2.durationFrom.ltb c.2.durationFrom then c
      else if c.2.durationFrom == latest.2.durationFrom then
        if latest.2.durationTo.ltb c.2.durationTo then c
        else if c.2.durationTo == latest.2.durationTo then
          if !latest.2.consolidated && c.2.consolidated then c else latest
        else latest
      else latest) (0, p0))

/-- The latest-BS selection chain (lines 210–216). -/
def select_latest_bs (bss : List BSInstance) : Option (Nat × BSInstance) :=
  match bss with
  | [] => none
  | b0 :: _ =>
    some (bss.enum.foldl (fun (latest : Nat × BSInstance) (c : Nat × BSInstance) =>
      if latest.2.period.ltb c.2.period then c
      else if c.2.period == latest.2.period then
        if !latest.2.consolidated && c.2.consolidated then c else latest
      else latest) (0, b0))

/-- The latest-CF selection chain (lines 224–236), same shape as PL. -/
def select_latest_cf (cfs : List CFInstance) : Option (Nat × CFInstance) :=
  match cfs with
  | [] => none
  | c0 :: _ =>
    some (cfs.enum.foldl (fun (latest : Nat × CFInstance) (c : Nat × CFInstance) =>
      if latest.2.durationFrom.ltb c.2.durationFrom then c
      else if c.2.durationFrom == latest.2.durationFrom then
        if latest.2.durationTo.ltb c.2.durationTo then c
        else if c.2.durationTo == latest.2.durationTo then
          if !latest.2.consolidated && c.2.consolidated then c else latest
        else latest
      else latest) (0, c0))

/-- `for x in tree.items: x.items = []` — empty the grandchildren of a
top-level tree, keeping its immediate children. -/
def prune_top_item (i : Item) : Item :=
  i.withItems (i.items.map (fun c => c.withItems []))

/-- The PL pruning (lines 203–208): prune each tree of `expenses` and
`netSales`. -/
def prune_pl (pl : PLInstance) : PLInstance :=
  { pl with expenses := pl.expenses.map prune_top_item,
            netSales := pl.netSales.map prune_top_item }

/-- The BS pruning (lines 217–222). -/
def prune_bs (bs : BSInstance) : BSInstance :=
  { bs with assets := prune_top_item bs.assets,
            liabilities := prune_top_item bs.liabilities,
            net_assets := prune_top_item bs.net_assets }

/-- The CF pruning (lines 237–242). -/
def prune_cf (cf : CFInstance) : CFInstance :=
  { cf with operating := prune_top_item cf.operating,
            investing := prune_top_item cf.investing,
            financing := prune_top_item cf.financing }

/-- One iteration of the `for file_path, company in
financial_statements_list` loop (lines 159–291), with the in-place
mutations made explicit as the returned post-state of the company (see the
section comment). -/
def summarize_company (c : SummaryCompany) : SummarizedCompany × SummaryCompany :=
  match select_latest_annual c.financialStatementDocuments with
  | none =>
    ({ companyName := c.name, edinetCode := c.edinetCode,
       latestPL := none, latestBS := none, latestCF := none }, c)
  | some (di, doc) =>
    let plSel := select_latest_pl doc.pl
    let bsSel := select_latest_bs doc.bs
    let cfSel := select_latest_cf doc.cf
    let latest_pl := plSel.map (fun s => prune_pl s.2)
    let latest_bs := bsSel.map (fun s => prune_bs s.2)
    let latest_cf := cfSel.map (fun s => prune_cf s.2)
    let doc1 := { doc with
      pl := match plSel with
        | some (i, p) => doc.pl.set i (prune_pl p)
        | none => doc.pl,
      bs := match bsSel with
        | some (i, b) => doc.bs.set i (prune_bs b)
        | none => doc.bs,
      cf := match cfSel with
        | some (i, f) => doc.cf.set i (prune_cf f)
        | none => doc.cf }
    ({ companyName := c.name, edinetCode := c.edinetCode,
       latestPL := latest_pl, latestBS := latest_bs, latestCF := latest_cf },
     { c with financialStatementDocuments :=
        c.financialStatementDocuments.set di doc1 })

/-! # Theorems

Helper lemmas shared between claims come first, then one theorem (plus
counterexample / witness where required) per claim. -/

/-! ## Fold helpers for the classification lists -/

/-- If a fold step appends `h b` to the projection `g`, the whole fold
appends `l.flatMap h`. -/
theorem foldl_flat_of_step {α β γ : Type} (f : α → β → α) (g : α → List γ)
    (h : β → List γ) (hf : ∀ a b, g (f a b) = g a ++ h b) :
    ∀ (l : List β) (a : α), g (l.foldl f a) = g a ++ l.flatMap h := by
  intro l
  induction l with
  | nil => intro a; simp
  | cons b bs ih =>
    intro a
    rw [List.foldl_cons, ih, hf, List.flatMap_cons, List.append_assoc]

/-- If a fold step leaves the projection `g` unchanged, so does the fold. -/
theorem foldl_preserve {α β γ : Type} (f : α → β → α) (g : α → List γ)
    (hf : ∀ a b, g (f a b) = g a) :
    ∀ (l : List β) (a : α), g (l.foldl f a) = g a := by
  intro l
  induction l with
  | nil => intro a; rfl
  | cons b bs ih => intro a; rw [List.foldl_cons, ih, hf]

/-- `flatMap` of a guarded singleton is `filter`. -/
theorem flatMap_ite_singleton {β : Type} (cond : β → Bool) (l : List β) :
    (l.flatMap (fun b => if cond b then [b] else [])) = l.filter cond := by
  induction l with
  | nil => rfl
  | cons b bs ih =>
    by_cases h : cond b <;>
      simp [List.flatMap_cons, List.filter_cons, h, ih]

/-- The month span of a PL instance's duration, as the aggregator computes
it. -/
theorem classify_pl_step_consolidated_annual (a : AggLists) (pl : PLInstanceV2) :
    (classify_pl a pl).consolidated_annual_pls =
      a.consolidated_annual_pls ++
        (if (calc_month_duration pl.durationFrom.month pl.durationTo.month == 0
            && pl.consolidated) then [pl] else []) := by
  simp only [classify_pl]
  split_ifs <;> simp_all

/-- Filtering distributes over `flatMap`. -/
theorem filter_flatMap {α β : Type} (l : List α) (f : α → List β) (p : β → Bool) :
    (l.flatMap f).filter p = l.flatMap (fun a => (f a).filter p) := by
  induction l with
  | nil => rfl
  | cons a as ih => simp [List.flatMap_cons, List.filter_append, ih]

theorem classify_documents_consolidated_annual_pls
    (docs : List FinancialStatementDocumentV2) :
    (classify_documents docs).consolidated_annual_pls =
      (docs.flatMap (fun d => d.pl)).filter
        (fun pl => calc_month_duration pl.durationFrom.month pl.durationTo.month == 0
          && pl.consolidated) := by
  have hstep : ∀ (a : AggLists) (d : FinancialStatementDocumentV2),
      (classify_document a d).consolidated_annual_pls =
        a.consolidated_annual_pls ++ d.pl.filter
          (fun pl => calc_month_duration pl.durationFrom.month pl.durationTo.month == 0
            && pl.consolidated) := by
    intro a d
    simp only [classify_document]
    simp only [foldl_preserve classify_cf (fun x => x.consolidated_annual_pls)
      (by intro x c; simp only [classify_cf]; split_ifs <;> rfl)]
    simp only [foldl_preserve classify_bs (fun x => x.consolidated_annual_pls)
      (by intro x b; simp only [classify_bs]; split_ifs <;> rfl)]
    simp only [foldl_flat_of_step classify_pl (fun x => x.consolidated_annual_pls)
      (fun pl => if (calc_month_duration pl.durationFrom.month pl.durationTo.month == 0
          && pl.consolidated) then [pl] else [])
      (by intro x pl; exact classify_pl_step_consolidated_annual x pl)]
    rw [flatMap_ite_singleton]
  show (docs.foldl classify_document {}).consolidated_annual_pls = _
  simp only [foldl_flat_of_step classify_document
    (fun x => x.consolidated_annual_pls)
    (fun d => d.pl.filter
      (fun pl => calc_month_duration pl.durationFrom.month pl.durationTo.month == 0
        && pl.consolidated)) hstep]
  rw [filter_flatMap]
  rfl

theorem classify_pl_step_nonconsolidated_annual_pls (a : AggLists) (pl : PLInstanceV2) :
    (classify_pl a pl).nonconsolidated_annual_pls =
      a.nonconsolidated_annual_pls ++ (if (calc_month_duration pl.durationFrom.month pl.durationTo.month == 0 && !pl.consolidated) then [pl] else []) := by
  simp only [classify_pl]
  split_ifs <;> simp_all

theorem classify_pl_step_consolidated_semianual_pls (a : AggLists) (pl : PLInstanceV2) :
    (classify_pl a pl).consolidated_semianual_pls =
      a.consolidated_semianual_pls ++ (if (calc_month_duration pl.durationFrom.month pl.durationTo.month == 6 && pl.consolidated) then [pl] else []) := by
  simp only [classify_pl]
  split_ifs <;> simp_all

theorem classify_pl_step_nonconsolidated_semianual_pls (a : AggLists) (pl : PLInstanceV2) :
    (classify_pl a pl).nonconsolidated_semianual_pls =
      a.nonconsolidated_semianual_pls ++ (if (calc_month_duration pl.durationFrom.month pl.durationTo.month == 6 && !pl.consolidated) then [pl] else []) := by
  simp only [classify_pl]
  split_ifs <;> simp_all

theorem classify_pl_step_consolidated_quarterly_pls (a : AggLists) (pl : PLInstanceV2) :
    (classify_pl a pl).consolidated_quarterly_pls =
      a.consolidated_quarterly_pls ++ (if ((calc_month_duration pl.durationFrom.month pl.durationTo.month == 3 || calc_month_duration pl.durationFrom.month pl.durationTo.month == 9) && pl.consolidated) then [pl] else []) := by
  simp only [classify_pl]
  split_ifs <;> simp_all

theorem classify_pl_step_nonconsolidated_quarterly_pls (a : AggLists) (pl : PLInstanceV2) :
    (classify_pl a pl).nonconsolidated_quarterly_pls =
      a.nonconsolidated_quarterly_pls ++ (if ((calc_month_duration pl.durationFrom.month pl.durationTo.month == 3 || calc_month_duration pl.durationFrom.month pl.durationTo.month == 9) && !pl.consolidated) then [pl] else []) := by
  simp only [classify_pl]
  split_ifs <;> simp_all

theorem classify_cf_step_consolidated_annual_fcs (a : AggLists) (cf : CFInstanceV2) :
    (classify_cf a cf).consolidated_annual_fcs =
      a.consolidated_annual_fcs ++ (if (calc_month_duration cf.durationFrom.month cf.durationTo.month == 0 && cf.consolidated) then [cf] else []) := by
  simp only [classify_cf]
  split_ifs <;> simp_all

theorem classify_cf_step_nonconsolidated_annual_fcs (a : AggLists) (cf : CFInstanceV2) :
    (classify_cf a cf).nonconsolidated_annual_fcs =
      a.nonconsolidated_annual_fcs ++ (if (calc_month_duration cf.durationFrom.month cf.durationTo.month == 0 && !cf.consolidated) then [cf] else []) := by
  simp only [classify_cf]
  split_ifs <;> simp_all

theorem classify_cf_step_consolidated_semianual_fcs (a : AggLists) (cf : CFInstanceV2) :
    (classify_cf a cf).consolidated_semianual_fcs =
      a.consolidated_semianual_fcs ++ (if (calc_month_duration cf.durationFrom.month cf.durationTo.month == 6 && cf.consolidated) then [cf] else []) := by
  simp only [classify_cf]
  split_ifs <;> simp_all

theorem classify_cf_step_nonconsolidated_semianual_fcs (a : AggLists) (cf : CFInstanceV2) :
    (classify_cf a cf).nonconsolidated_semianual_fcs =
      a.nonconsolidated_semianual_fcs ++ (if (calc_month_duration cf.durationFrom.month cf.durationTo.month == 6 && !cf.consolidated) then [cf] else []) := by
  simp only [classify_cf]
  split_ifs <;> simp_all

theorem classify_cf_step_consolidated_quarterly_fcs (a : AggLists) (cf : CFInstanceV2) :
    (classify_cf a cf).consolidated_quarterly_fcs =
      a.consolidated_quarterly_fcs ++ (if ((calc_month_duration cf.durationFrom.month cf.durationTo.month == 3 || calc_month_duration cf.durationFrom.month cf.durationTo.month == 9) && cf.consolidated) then [cf] else []) := by
  simp only [classify_cf]
  split_ifs <;> simp_all

theorem classify_cf_step_nonconsolidated_quarterly_fcs (a : AggLists) (cf : CFInstanceV2) :
    (classify_cf a cf).nonconsolidated_quarterly_fcs =
      a.nonconsolidated_quarterly_fcs ++ (if ((calc_month_duration cf.durationFrom.month cf.durationTo.month == 3 || calc_month_duration cf.durationFrom.month cf.durationTo.month == 9) && !cf.consolidated) then [cf] else []) := by
  simp only [classify_cf]
  split_ifs <;> simp_all

theorem classify_documents_nonconsolidated_annual_pls
    (docs : List FinancialStatementDocumentV2) :
    (classify_documents docs).nonconsolidated_annual_pls =
      (docs.flatMap (fun d => d.pl)).filter (fun pl => calc_month_duration pl.durationFrom.month pl.durationTo.month == 0 && !pl.consolidated) := by
  have hstep : ∀ (a : AggLists) (d : FinancialStatementDocumentV2),
      (classify_document a d).nonconsolidated_annual_pls =
        a.nonconsolidated_annual_pls ++ d.pl.filter (fun pl => calc_month_duration pl.durationFrom.month pl.durationTo.month == 0 && !pl.consolidated) := by
    intro a d
    simp only [classify_document]
    simp only [foldl_preserve classify_cf (fun x => x.nonconsolidated_annual_pls)
      (by intro x c; simp only [classify_cf]; split_ifs <;> rfl)]
    simp only [foldl_preserve classify_bs (fun x => x.nonconsolidated_annual_pls)
      (by intro x b; simp only [classify_bs]; split_ifs <;> rfl)]
    simp only [foldl_flat_of_step classify_pl (fun x => x.nonconsolidated_annual_pls)
      (fun pl => if (calc_month_duration pl.durationFrom.month pl.durationTo.month == 0 && !pl.consolidated) then [pl] else [])
      (by intro x pl; exact classify_pl_step_nonconsolidated_annual_pls x pl)]
    rw [flatMap_ite_singleton]
  show (docs.foldl classify_document {}).nonconsolidated_annual_pls = _
  simp only [foldl_flat_of_step classify_document (fun x => x.nonconsolidated_annual_pls)
    (fun d => d.pl.filter (fun pl => calc_month_duration pl.durationFrom.month pl.durationTo.month == 0 && !pl.consolidated)) hstep]
  rw [filter_flatMap]
  rfl

theorem classify_documents_consolidated_semianual_pls
    (docs : List FinancialStatementDocumentV2) :
    (classify_documents docs).consolidated_semianual_pls =
      (docs.flatMap (fun d => d.pl)).filter (fun pl => calc_month_duration pl.durationFrom.month pl.durationTo.month == 6 && pl.consolidated) := by
  have hstep : ∀ (a : AggLists) (d : FinancialStatementDocumentV2),
      (classify_document a d).consolidated_semianual_pls =
        a.consolidated_semianual_pls ++ d.pl.filter (fun pl => calc_month_duration pl.durationFrom.month pl.durationTo.month == 6 && pl.consolidated) := by
    intro a d
    simp only [classify_document]
    simp only [foldl_preserve classify_cf (fun x => x.consolidated_semianual_pls)
      (by intro x c; simp only [classify_cf]; split_ifs <;> rfl)]
    simp only [foldl_preserve classify_bs (fun x => x.consolidated_semianual_pls)
      (by intro x b; simp only [classify_bs]; split_ifs <;> rfl)]
    simp only [foldl_flat_of_step classify_pl (fun x => x.consolidated_semianual_pls)
      (fun pl => if (calc_month_duration pl.durationFrom.month pl.durationTo.month == 6 && pl.consolidated) then [pl] else [])
      (by intro x pl; exact classify_pl_step_consolidated_semianual_pls x pl)]
    rw [flatMap_ite_singleton]
  show (docs.foldl classify_document {}).consolidated_semianual_pls = _
  simp only [foldl_flat_of_step classify_document (fun x => x.consolidated_semianual_pls)
    (fun d => d.pl.filter (fun pl => calc_month_duration pl.durationFrom.month pl.durationTo.month == 6 && pl.consolidated)) hstep]
  rw [filter_flatMap]
  rfl

theorem classify_documents_nonconsolidated_semianual_pls
    (docs : List FinancialStatementDocumentV2) :
    (classify_documents docs).nonconsolidated_semianual_pls =
      (docs.flatMap (fun d => d.pl)).filter (fun pl => calc_month_duration pl.durationFrom.month pl.durationTo.month == 6 && !pl.consolidated) := by
  have hstep : ∀ (a : AggLists) (d : FinancialStatementDocumentV2),
      (classify_document a d).nonconsolidated_semianual_pls =
        a.nonconsolidated_semianual_pls ++ d.pl.filter (fun pl => calc_month_duration pl.durationFrom.month pl.durationTo.month == 6 && !pl.consolidated) := by
    intro a d
    simp only [classify_document]
    simp only [foldl_preserve classify_cf (fun x => x.nonconsolidated_semianual_pls)
      (by intro x c; simp only [classify_cf]; split_ifs <;> rfl)]
    simp only [foldl_preserve classify_bs (fun x => x.nonconsolidated_semianual_pls)
      (by intro x b; simp only [classify_bs]; split_ifs <;> rfl)]
    simp only [foldl_flat_of_step classify_pl (fun x => x.nonconsolidated_semianual_pls)
      (fun pl => if (calc_month_duration pl.durationFrom.month pl.durationTo.month == 6 && !pl.consolidated) then [pl] else [])
      (by intro x pl; exact classify_pl_step_nonconsolidated_semianual_pls x pl)]
    rw [flatMap_ite_singleton]
  show (docs.foldl classify_document {}).nonconsolidated_semianual_pls = _
  simp only [foldl_flat_of_step classify_document (fun x => x.nonconsolidated_semianual_pls)
    (fun d => d.pl.filter (fun pl => calc_month_duration pl.durationFrom.month pl.durationTo.month == 6 && !pl.consolidated)) hstep]
  rw [filter_flatMap]
  rfl

theorem classify_documents_consolidated_quarterly_pls
    (docs : List FinancialStatementDocumentV2) :
    (classify_documents docs).consolidated_quarterly_pls =
      (docs.flatMap (fun d => d.pl)).filter (fun pl => (calc_month_duration pl.durationFrom.month pl.durationTo.month == 3 || calc_month_duration pl.durationFrom.month pl.durationTo.month == 9) && pl.consolidated) := by
  have hstep : ∀ (a : AggLists) (d : FinancialStatementDocumentV2),
      (classify_document a d).consolidated_quarterly_pls =
        a.consolidated_quarterly_pls ++ d.pl.filter (fun pl => (calc_month_duration pl.durationFrom.month pl.durationTo.month == 3 || calc_month_duration pl.durationFrom.month pl.durationTo.month == 9) && pl.consolidated) := by
    intro a d
    simp only [classify_document]
    simp only [foldl_preserve classify_cf (fun x => x.consolidated_quarterly_pls)
      (by intro x c; simp only [classify_cf]; split_ifs <;> rfl)]
    simp only [foldl_preserve classify_bs (fun x => x.consolidated_quarterly_pls)
      (by intro x b; simp only [classify_bs]; split_ifs <;> rfl)]
    simp only [foldl_flat_of_step classify_pl (fun x => x.consolidated_quarterly_pls)
      (fun pl => if ((calc_month_duration pl.durationFrom.month pl.durationTo.month == 3 || calc_month_duration pl.durationFrom.month pl.durationTo.month == 9) && pl.consolidated) then [pl] else [])
      (by intro x pl; exact classify_pl_step_consolidated_quarterly_pls x pl)]
    rw [flatMap_ite_singleton]
  show (docs.foldl classify_document {}).consolidated_quarterly_pls = _
  simp only [foldl_flat_of_step classify_document (fun x => x.consolidated_quarterly_pls)
    (fun d => d.pl.filter (fun pl => (calc_month_duration pl.durationFrom.month pl.durationTo.month == 3 || calc_month_duration pl.durationFrom.month pl.durationTo.month == 9) && pl.consolidated)) hstep]
  rw [filter_flatMap]
  rfl

theorem classify_documents_nonconsolidated_quarterly_pls
    (docs : List FinancialStatementDocumentV2) :
    (classify_documents docs).nonconsolidated_quarterly_pls =
      (docs.flatMap (fun d => d.pl)).filter (fun pl => (calc_month_duration pl.durationFrom.month pl.durationTo.month == 3 || calc_month_duration pl.durationFrom.month pl.durationTo.month == 9) && !pl.consolidated) := by
  have hstep : ∀ (a : AggLists) (d : FinancialStatementDocumentV2),
      (classify_document a d).nonconsolidated_quarterly_pls =
        a.nonconsolidated_quarterly_pls ++ d.pl.filter (fun pl => (calc_month_duration pl.durationFrom.month pl.durationTo.month == 3 || calc_month_duration pl.durationFrom.month pl.durationTo.month == 9) && !pl.consolidated) := by
    intro a d
    simp only [classify_document]
    simp only [foldl_preserve classify_cf (fun x => x.nonconsolidated_quarterly_pls)
      (by intro x c; simp only [classify_cf]; split_ifs <;> rfl)]
    simp only [foldl_preserve classify_bs (fun x => x.nonconsolidated_quarterly_pls)
      (by intro x b; simp only [classify_bs]; split_ifs <;> rfl)]
    simp only [foldl_flat_of_step classify_pl (fun x => x.nonconsolidated_quarterly_pls)
      (fun pl => if ((calc_month_duration pl.durationFrom.month pl.durationTo.month == 3 || calc_month_duration pl.durationFrom.month pl.durationTo.month == 9) && !pl.consolidated) then [pl] else [])
      (by intro x pl; exact classify_pl_step_nonconsolidated_quarterly_pls x pl)]
    rw [flatMap_ite_singleton]
  show (docs.foldl classify_document {}).nonconsolidated_quarterly_pls = _
  simp only [foldl_flat_of_step classify_document (fun x => x.nonconsolidated_quarterly_pls)
    (fun d => d.pl.filter (fun pl => (calc_month_duration pl.durationFrom.month pl.durationTo.month == 3 || calc_month_duration pl.durationFrom.month pl.durationTo.month == 9) && !pl.consolidated)) hstep]
  rw [filter_flatMap]
  rfl

theorem classify_documents_consolidated_annual_fcs
    (docs : List FinancialStatementDocumentV2) :
    (classify_documents docs).consolidated_annual_fcs =
      (docs.flatMap (fun d => d.cf)).filter (fun cf => calc_month_duration cf.durationFrom.month cf.durationTo.month == 0 && cf.consolidated) := by
  have hstep : ∀ (a : AggLists) (d : FinancialStatementDocumentV2),
      (classify_document a d).consolidated_annual_fcs =
        a.consolidated_annual_fcs ++ d.cf.filter (fun cf => calc_month_duration cf.durationFrom.month cf.durationTo.month == 0 && cf.consolidated) := by
    intro a d
    simp only [classify_document]
    simp only [foldl_flat_of_step classify_cf (fun x => x.consolidated_annual_fcs)
      (fun cf => if (calc_month_duration cf.durationFrom.month cf.durationTo.month == 0 && cf.consolidated) then [cf] else [])
      (by intro x cf; exact classify_cf_step_consolidated_annual_fcs x cf)]
    simp only [foldl_preserve classify_bs (fun x => x.consolidated_annual_fcs)
      (by intro x b; simp only [classify_bs]; split_ifs <;> rfl)]
    simp only [foldl_preserve classify_pl (fun x => x.consolidated_annual_fcs)
      (by intro x p; simp only [classify_pl]; split_ifs <;> rfl)]
    rw [flatMap_ite_singleton]
  show (docs.foldl classify_document {}).consolidated_annual_fcs = _
  simp only [foldl_flat_of_step classify_document (fun x => x.consolidated_annual_fcs)
    (fun d => d.cf.filter (fun cf => calc_month_duration cf.durationFrom.month cf.durationTo.month == 0 && cf.consolidated)) hstep]
  rw [filter_flatMap]
  rfl

theorem classify_documents_nonconsolidated_annual_fcs
    (docs : List FinancialStatementDocumentV2) :
    (classify_documents docs).nonconsolidated_annual_fcs =
      (docs.flatMap (fun d => d.cf)).filter (fun cf => calc_month_duration cf.durationFrom.month cf.durationTo.month == 0 && !cf.consolidated) := by
  have hstep : ∀ (a : AggLists) (d : FinancialStatementDocumentV2),
      (classify_document a d).nonconsolidated_annual_fcs =
        a.nonconsolidated_annual_fcs ++ d.cf.filter (fun cf => calc_month_duration cf.durationFrom.month cf.durationTo.month == 0 && !cf.consolidated) := by
    intro a d
    simp only [classify_document]
    simp only [foldl_flat_of_step classify_cf (fun x => x.nonconsolidated_annual_fcs)
      (fun cf => if (calc_month_duration cf.durationFrom.month cf.durationTo.month == 0 && !cf.consolidated) then [cf] else [])
      (by intro x cf; exact classify_cf_step_nonconsolidated_annual_fcs x cf)]
    simp only [foldl_preserve classify_bs (fun x => x.nonconsolidated_annual_fcs)
      (by intro x b; simp only [classify_bs]; split_ifs <;> rfl)]
    simp only [foldl_preserve classify_pl (fun x => x.nonconsolidated_annual_fcs)
      (by intro x p; simp only [classify_pl]; split_ifs <;> rfl)]
    rw [flatMap_ite_singleton]
  show (docs.foldl classify_document {}).nonconsolidated_annual_fcs = _
  simp only [foldl_flat_of_step classify_document (fun x => x.nonconsolidated_annual_fcs)
    (fun d => d.cf.filter (fun cf => calc_month_duration cf.durationFrom.month cf.durationTo.month == 0 && !cf.consolidated)) hstep]
  rw [filter_flatMap]
  rfl

theorem classify_documents_consolidated_semianual_fcs
    (docs : List FinancialStatementDocumentV2) :
    (classify_documents docs).consolidated_semianual_fcs =
      (docs.flatMap (fun d => d.cf)).filter (fun cf => calc_month_duration cf.durationFrom.month cf.durationTo.month == 6 && cf.consolidated) := by
  have hstep : ∀ (a : AggLists) (d : FinancialStatementDocumentV2),
      (classify_document a d).consolidated_semianual_fcs =
        a.consolidated_semianual_fcs ++ d.cf.filter (fun cf => calc_month_duration cf.durationFrom.month cf.durationTo.month == 6 && cf.consolidated) := by
    intro a d
    simp only [classify_document]
    simp only [foldl_flat_of_step classify_cf (fun x => x.consolidated_semianual_fcs)
      (fun cf => if (calc_month_duration cf.durationFrom.month cf.durationTo.month == 6 && cf.consolidated) then [cf] else [])
      (by intro x cf; exact classify_cf_step_consolidated_semianual_fcs x cf)]
    simp only [foldl_preserve classify_bs (fun x => x.consolidated_semianual_fcs)
      (by intro x b; simp only [classify_bs]; split_ifs <;> rfl)]
    simp only [foldl_preserve classify_pl (fun x => x.consolidated_semianual_fcs)
      (by intro x p; simp only [classify_pl]; split_ifs <;> rfl)]
    rw [flatMap_ite_singleton]
  show (docs.foldl classify_document {}).consolidated_semianual_fcs = _
  simp only [foldl_flat_of_step classify_document (fun x => x.consolidated_semianual_fcs)
    (fun d => d.cf.filter (fun cf => calc_month_duration cf.durationFrom.month cf.durationTo.month == 6 && cf.consolidated)) hstep]
  rw [filter_flatMap]
  rfl

theorem classify_documents_nonconsolidated_semianual_fcs
    (docs : List FinancialStatementDocumentV2) :
    (classify_documents docs).nonconsolidated_semianual_fcs =
      (docs.flatMap (fun d => d.cf)).filter (fun cf => calc_month_duration cf.durationFrom.month cf.durationTo.month == 6 && !cf.consolidated) := by
  have hstep : ∀ (a : AggLists) (d : FinancialStatementDocumentV2),
      (classify_document a d).nonconsolidated_semianual_fcs =
        a.nonconsolidated_semianual_fcs ++ d.cf.filter (fun cf => calc_month_duration cf.durationFrom.month cf.durationTo.month == 6 && !cf.consolidated) := by
    intro a d
    simp only [classify_document]
    simp only [foldl_flat_of_step classify_cf (fun x => x.nonconsolidated_semianual_fcs)
      (fun cf => if (calc_month_duration cf.durationFrom.month cf.durationTo.month == 6 && !cf.consolidated) then [cf] else [])
      (by intro x cf; exact classify_cf_step_nonconsolidated_semianual_fcs x cf)]
    simp only [foldl_preserve classify_bs (fun x => x.nonconsolidated_semianual_fcs)
      (by intro x b; simp only [classify_bs]; split_ifs <;> rfl)]
    simp only [foldl_preserve classify_pl (fun x => x.nonconsolidated_semianual_fcs)
      (by intro x p; simp only [classify_pl]; split_ifs <;> rfl)]
    rw [flatMap_ite_singleton]
  show (docs.foldl classify_document {}).nonconsolidated_semianual_fcs = _
  simp only [foldl_flat_of_step classify_document (fun x => x.nonconsolidated_semianual_fcs)
    (fun d => d.cf.filter (fun cf => calc_month_duration cf.durationFrom.month cf.durationTo.month == 6 && !cf.consolidated)) hstep]
  rw [filter_flatMap]
  rfl

theorem classify_documents_consolidated_quarterly_fcs
    (docs : List FinancialStatementDocumentV2) :
    (classify_documents docs).consolidated_quarterly_fcs =
      (docs.flatMap (fun d => d.cf)).filter (fun cf => (calc_month_duration cf.durationFrom.month cf.durationTo.month == 3 || calc_month_duration cf.durationFrom.month cf.durationTo.month == 9) && cf.consolidated) := by
  have hstep : ∀ (a : AggLists) (d : FinancialStatementDocumentV2),
      (classify_document a d).consolidated_quarterly_fcs =
        a.consolidated_quarterly_fcs ++ d.cf.filter (fun cf => (calc_month_duration cf.durationFrom.month cf.durationTo.month == 3 || calc_month_duration cf.durationFrom.month cf.durationTo.month == 9) && cf.consolidated) := by
    intro a d
    simp only [classify_document]
    simp only [foldl_flat_of_step classify_cf (fun x => x.consolidated_quarterly_fcs)
      (fun cf => if ((calc_month_duration cf.durationFrom.month cf.durationTo.month == 3 || calc_month_duration cf.durationFrom.month cf.durationTo.month == 9) && cf.consolidated) then [cf] else [])
      (by intro x cf; exact classify_cf_step_consolidated_quarterly_fcs x cf)]
    simp only [foldl_preserve classify_bs (fun x => x.consolidated_quarterly_fcs)
      (by intro x b; simp only [classify_bs]; split_ifs <;> rfl)]
    simp only [foldl_preserve classify_pl (fun x => x.consolidated_quarterly_fcs)
      (by intro x p; simp only [classify_pl]; split_ifs <;> rfl)]
    rw [flatMap_ite_singleton]
  show (docs.foldl classify_document {}).consolidated_quarterly_fcs = _
  simp only [foldl_flat_of_step classify_document (fun x => x.consolidated_quarterly_fcs)
    (fun d => d.cf.filter (fun cf => (calc_month_duration cf.durationFrom.month cf.durationTo.month == 3 || calc_month_duration cf.durationFrom.month cf.durationTo.month == 9) && cf.consolidated)) hstep]
  rw [filter_flatMap]
  rfl

theorem classify_documents_nonconsolidated_quarterly_fcs
    (docs : List FinancialStatementDocumentV2) :
    (classify_documents docs).nonconsolidated_quarterly_fcs =
      (docs.flatMap (fun d => d.cf)).filter (fun cf => (calc_month_duration cf.durationFrom.month cf.durationTo.month == 3 || calc_month_duration cf.durationFrom.month cf.durationTo.month == 9) && !cf.consolidated) := by
  have hstep : ∀ (a : AggLists) (d : FinancialStatementDocumentV2),
      (classify_document a d).nonconsolidated_quarterly_fcs =
        a.nonconsolidated_quarterly_fcs ++ d.cf.filter (fun cf => (calc_month_duration cf.durationFrom.month cf.durationTo.month == 3 || calc_month_duration cf.durationFrom.month cf.durationTo.month == 9) && !cf.consolidated) := by
    intro a d
    simp only [classify_document]
    simp only [foldl_flat_of_step classify_cf (fun x => x.nonconsolidated_quarterly_fcs)
      (fun cf => if ((calc_month_duration cf.durationFrom.month cf.durationTo.month == 3 || calc_month_duration cf.durationFrom.month cf.durationTo.month == 9) && !cf.consolidated) then [cf] else [])
      (by intro x cf; exact classify_cf_step_nonconsolidated_quarterly_fcs x cf)]
    simp only [foldl_preserve classify_bs (fun x => x.nonconsolidated_quarterly_fcs)
      (by intro x b; simp only [classify_bs]; split_ifs <;> rfl)]
    simp only [foldl_preserve classify_pl (fun x => x.nonconsolidated_quarterly_fcs)
      (by intro x p; simp only [classify_pl]; split_ifs <;> rfl)]
    rw [flatMap_ite_singleton]
  show (docs.foldl classify_document {}).nonconsolidated_quarterly_fcs = _
  simp only [foldl_flat_of_step classify_document (fun x => x.nonconsolidated_quarterly_fcs)
    (fun d => d.cf.filter (fun cf => (calc_month_duration cf.durationFrom.month cf.durationTo.month == 3 || calc_month_duration cf.durationFrom.month cf.durationTo.month == 9) && !cf.consolidated)) hstep]
  rw [filter_flatMap]
  rfl

/-- C6: the cyclic month-span function satisfies the design table
(`span(3,6)=3`, `span(12,1)=1`, `span(2,1)=11`, `span(12,12)=0`,
`span(10,1)=3`); in the v2 aggregator every PL and CF instance is bucketed
by the span of its duration — span 0 into the annual lists, 6 into the
semiannual lists, 3 or 9 into the quarterly lists, split by the
consolidation flag — and an instance with any other span lands in no bucket
at all (it is silently discarded). -/
theorem C6_month_span_classification :
    (calc_month_duration 3 6 = 3 ∧ calc_month_duration 12 1 = 1 ∧
     calc_month_duration 2 1 = 11 ∧ calc_month_duration 12 12 = 0 ∧
     calc_month_duration 10 1 = 3) ∧
    (∀ docs : List FinancialStatementDocumentV2,
      (classify_documents docs).consolidated_annual_pls =
        (docs.flatMap (fun d => d.pl)).filter (fun pl => calc_month_duration pl.durationFrom.month pl.durationTo.month == 0 && pl.consolidated) ∧
      (classify_documents docs).nonconsolidated_annual_pls =
        (docs.flatMap (fun d => d.pl)).filter (fun pl => calc_month_duration pl.durationFrom.month pl.durationTo.month == 0 && !pl.consolidated) ∧
      (classify_documents docs).consolidated_semianual_pls =
        (docs.flatMap (fun d => d.pl)).filter (fun pl => calc_month_duration pl.durationFrom.month pl.durationTo.month == 6 && pl.consolidated) ∧
      (classify_documents docs).nonconsolidated_semianual_pls =
        (docs.flatMap (fun d => d.pl)).filter (fun pl => calc_month_duration pl.durationFrom.month pl.durationTo.month == 6 && !pl.consolidated) ∧
      (classify_documents docs).consolidated_quarterly_pls =
        (docs.flatMap (fun d => d.pl)).filter (fun pl => (calc_month_duration pl.durationFrom.month pl.durationTo.month == 3 || calc_month_duration pl.durationFrom.month pl.durationTo.month == 9) && pl.consolidated) ∧
      (classify_documents docs).nonconsolidated_quarterly_pls =
        (docs.flatMap (fun d => d.pl)).filter (fun pl => (calc_month_duration pl.durationFrom.month pl.durationTo.month == 3 || calc_month_duration pl.durationFrom.month pl.durationTo.month == 9) && !pl.consolidated)) ∧
    (∀ docs : List FinancialStatementDocumentV2,
      (classify_documents docs).consolidated_annual_fcs =
        (docs.flatMap (fun d => d.cf)).filter (fun cf => calc_month_duration cf.durationFrom.month cf.durationTo.month == 0 && cf.consolidated) ∧
      (classify_documents docs).nonconsolidated_annual_fcs =
        (docs.flatMap (fun d => d.cf)).filter (fun cf => calc_month_duration cf.durationFrom.month cf.durationTo.month == 0 && !cf.consolidated) ∧
      (classify_documents docs).consolidated_semianual_fcs =
        (docs.flatMap (fun d => d.cf)).filter (fun cf => calc_month_duration cf.durationFrom.month cf.durationTo.month == 6 && cf.consolidated) ∧
      (classify_documents docs).nonconsolidated_semianual_fcs =
        (docs.flatMap (fun d => d.cf)).filter (fun cf => calc_month_duration cf.durationFrom.month cf.durationTo.month == 6 && !cf.consolidated) ∧
      (classify_documents docs).consolidated_quarterly_fcs =
        (docs.flatMap (fun d => d.cf)).filter (fun cf => (calc_month_duration cf.durationFrom.month cf.durationTo.month == 3 || calc_month_duration cf.durationFrom.month cf.durationTo.month == 9) && cf.consolidated) ∧
      (classify_documents docs).nonconsolidated_quarterly_fcs =
        (docs.flatMap (fun d => d.cf)).filter (fun cf => (calc_month_duration cf.durationFrom.month cf.durationTo.month == 3 || calc_month_duration cf.durationFrom.month cf.durationTo.month == 9) && !cf.consolidated)) ∧
    (∀ (docs : List FinancialStatementDocumentV2) (pl : PLInstanceV2),
      pl ∈ docs.flatMap (fun d => d.pl) →
      calc_month_duration pl.durationFrom.month pl.durationTo.month ≠ 0 → calc_month_duration pl.durationFrom.month pl.durationTo.month ≠ 6 → calc_month_duration pl.durationFrom.month pl.durationTo.month ≠ 3 → calc_month_duration pl.durationFrom.month pl.durationTo.month ≠ 9 →
      (pl ∉ (classify_documents docs).consolidated_annual_pls ∧
       pl ∉ (classify_documents docs).nonconsolidated_annual_pls ∧
       pl ∉ (classify_documents docs).consolidated_semianual_pls ∧
       pl ∉ (classify_documents docs).nonconsolidated_semianual_pls ∧
       pl ∉ (classify_documents docs).consolidated_quarterly_pls ∧
       pl ∉ (classify_documents docs).nonconsolidated_quarterly_pls)) ∧
    (∀ (docs : List FinancialStatementDocumentV2) (cf : CFInstanceV2),
      cf ∈ docs.flatMap (fun d => d.cf) →
      calc_month_duration cf.durationFrom.month cf.durationTo.month ≠ 0 → calc_month_duration cf.durationFrom.month cf.durationTo.month ≠ 6 → calc_month_duration cf.durationFrom.month cf.durationTo.month ≠ 3 → calc_month_duration cf.durationFrom.month cf.durationTo.month ≠ 9 →
      (cf ∉ (classify_documents docs).consolidated_annual_fcs ∧
       cf ∉ (classify_documents docs).nonconsolidated_annual_fcs ∧
       cf ∉ (classify_documents docs).consolidated_semianual_fcs ∧
       cf ∉ (classify_documents docs).nonconsolidated_semianual_fcs ∧
       cf ∉ (classify_documents docs).consolidated_quarterly_fcs ∧
       cf ∉ (classify_documents docs).nonconsolidated_quarterly_fcs)) := by
  refine ⟨⟨by decide, by decide, by decide, by decide, by decide⟩, ?_, ?_, ?_, ?_⟩
  · intro docs
    exact ⟨classify_documents_consolidated_annual_pls docs,
      classify_documents_nonconsolidated_annual_pls docs,
      classify_documents_consolidated_semianual_pls docs,
      classify_documents_nonconsolidated_semianual_pls docs,
      classify_documents_consolidated_quarterly_pls docs,
      classify_documents_nonconsolidated_quarterly_pls docs⟩
  · intro docs
    exact ⟨classify_documents_consolidated_annual_fcs docs,
      classify_documents_nonconsolidated_annual_fcs docs,
      classify_documents_consolidated_semianual_fcs docs,
      classify_documents_nonconsolidated_semianual_fcs docs,
      classify_documents_consolidated_quarterly_fcs docs,
      classify_documents_nonconsolidated_quarterly_fcs docs⟩
  · intro docs pl hmem h0 h6 h3 h9
    refine ⟨?_, ?_, ?_, ?_, ?_, ?_⟩
    · intro hmemF
      rw [classify_documents_consolidated_annual_pls] at hmemF
      simp only [List.mem_filter] at hmemF
      obtain ⟨-, hc⟩ := hmemF
      simp at hc
      tauto
    · intro hmemF
      rw [classify_documents_nonconsolidated_annual_pls] at hmemF
      simp only [List.mem_filter] at hmemF
      obtain ⟨-, hc⟩ := hmemF
      simp at hc
      tauto
    · intro hmemF
      rw [classify_documents_consolidated_semianual_pls] at hmemF
      simp only [List.mem_filter] at hmemF
      obtain ⟨-, hc⟩ := hmemF
      simp at hc
      tauto
    · intro hmemF
      rw [classify_documents_nonconsolidated_semianual_pls] at hmemF
      simp only [List.mem_filter] at hmemF
      obtain ⟨-, hc⟩ := hmemF
      simp at hc
      tauto
    · intro hmemF
      rw [classify_documents_consolidated_quarterly_pls] at hmemF
      simp only [List.mem_filter] at hmemF
      obtain ⟨-, hc⟩ := hmemF
      simp at hc
      tauto
    · intro hmemF
      rw [classify_documents_nonconsolidated_quarterly_pls] at hmemF
      simp only [List.mem_filter] at hmemF
      obtain ⟨-, hc⟩ := hmemF
      simp at hc
      tauto
  · intro docs cf hmem h0 h6 h3 h9
    refine ⟨?_, ?_, ?_, ?_, ?_, ?_⟩
    · intro hmemF
      rw [classify_documents_consolidated_annual_fcs] at hmemF
      simp only [List.mem_filter] at hmemF
      obtain ⟨-, hc⟩ := hmemF
      simp at hc
      tauto
    · intro hmemF
      rw [classify_documents_nonconsolidated_annual_fcs] at hmemF
      simp only [List.mem_filter] at hmemF
      obtain ⟨-, hc⟩ := hmemF
      simp at hc
      tauto
    · intro hmemF
      rw [classify_documents_consolidated_semianual_fcs] at hmemF
      simp only [List.mem_filter] at hmemF
      obtain ⟨-, hc⟩ := hmemF
      simp at hc
      tauto
    · intro hmemF
      rw [classify_documents_nonconsolidated_semianual_fcs] at hmemF
      simp only [List.mem_filter] at hmemF
      obtain ⟨-, hc⟩ := hmemF
      simp at hc
      tauto
    · intro hmemF
      rw [classify_documents_consolidated_quarterly_fcs] at hmemF
      simp only [List.mem_filter] at hmemF
      obtain ⟨-, hc⟩ := hmemF
      simp at hc
      tauto
    · intro hmemF
      rw [classify_documents_nonconsolidated_quarterly_fcs] at hmemF
      simp only [List.mem_filter] at hmemF
      obtain ⟨-, hc⟩ := hmemF
      simp at hc
      tauto

/-- Witness for `C6_month_span_classification`: a consolidated PL instance
spanning months 1→5 (span 4) is in no bucket of the aggregate built from
one document containing it. -/
theorem C6_month_span_classification_witness :
    (⟨⟨2022, 1, 1⟩, ⟨2022, 5, 31⟩, true, ⟨2023, 1, 1⟩, "d1"⟩ : PLInstanceV2) ∉
      (classify_documents
        [⟨[⟨⟨2022, 1, 1⟩, ⟨2022, 5, 31⟩, true, ⟨2023, 1, 1⟩, "d1"⟩], [], []⟩]
        ).consolidated_annual_pls :=
  (C6_month_span_classification.2.2.2.1
    [⟨[⟨⟨2022, 1, 1⟩, ⟨2022, 5, 31⟩, true, ⟨2023, 1, 1⟩, "d1"⟩], [], []⟩]
    ⟨⟨2022, 1, 1⟩, ⟨2022, 5, 31⟩, true, ⟨2023, 1, 1⟩, "d1"⟩
    (by decide) (by decide) (by decide) (by decide) (by decide)).1

/-! ## C10: the unique-fact lookup -/

/-- Bind of a success, definitionally. -/
theorem except_bind_ok {ε α β : Type} (a : α) (k : α → Except ε β) :
    (Except.ok a : Except ε α) >>= k = k a := rfl

/-- The pairwise-difference loop finds a differing pair iff one exists. -/
theorem hasDiffPair_iff (l : List Fact) :
    hasDiffPair l = true ↔ ∃ a ∈ l, ∃ b ∈ l, a.sValue ≠ b.sValue := by
  induction l with
  | nil => simp [hasDiffPair]
  | cons f rest ih =>
    simp only [hasDiffPair, Bool.or_eq_true, List.any_eq_true, ih,
      List.mem_cons, bne_iff_ne, ne_eq]
    constructor
    · rintro (⟨g, hg, hne⟩ | ⟨a, ha, b, hb, hne⟩)
      · exact ⟨f, Or.inl rfl, g, Or.inr hg, hne⟩
      · exact ⟨a, Or.inr ha, b, Or.inr hb, hne⟩
    · rintro ⟨a, ha | ha, b, hb | hb, hne⟩
      · subst ha; subst hb; exact absurd rfl hne
      · subst ha; exact Or.inl ⟨b, hb, hne⟩
      · subst hb; exact Or.inl ⟨a, ha, fun h => hne h.symm⟩
      · exact Or.inr ⟨a, ha, b, hb, hne⟩

/-- C10: for a (concept, context) lookup whose candidate list (the
concept's facts filtered to the context) is `fs`: with `fs` empty the
lookup is the out-of-bounds `facts[0]` (`IndexError`), never an "absent"
success; with exactly one candidate it returns that fact; with several it
raises exactly when two candidates disagree on `sValue` and otherwise
returns the first; and in `_extract_items` a missing fact propagates that
`IndexError` (it is not treated as a missing branch), while an explicitly
nil fact yields the absent result `none`. -/
theorem C10_unique_fact_lookup (m : XbrlModel) (q ctx : String)
    (fs : List Fact)
    (hfs : fs = m.facts.filter (fun f => f.qname == q && f.contextId == ctx)) :
    (fs = [] → get_unique_fact m q ctx = .error .indexError) ∧
    (∀ f, fs = [f] → get_unique_fact m q ctx = .ok f) ∧
    (2 ≤ fs.length →
      ((∃ a ∈ fs, ∃ b ∈ fs, a.sValue ≠ b.sValue) →
        get_unique_fact m q ctx =
          .error (.valueError "Multiple facts with different values are found.")) ∧
      ((∀ a ∈ fs, ∀ b ∈ fs, a.sValue = b.sValue) →
        ∃ f rest, fs = f :: rest ∧ get_unique_fact m q ctx = .ok f)) ∧
    (∀ (fuel : Nat) (rel : Option Rel), fs = [] →
      extract_items m (fuel + 1) q ctx rel = .error .indexError) ∧
    (∀ (fuel : Nat) (rel : Option Rel) (f : Fact), fs = [f] → f.isNil = true →
      extract_items m (fuel + 1) q ctx rel = .ok none) := by
  have hunf : get_unique_fact m q ctx = get_unique_fact_of_candidates fs := by
    rw [hfs]
    rfl
  refine ⟨?_, ?_, ?_, ?_, ?_⟩
  · intro h
    rw [h] at hunf
    simpa [get_unique_fact_of_candidates, hasDiffPair] using hunf
  · intro f h
    rw [h] at hunf
    simpa [get_unique_fact_of_candidates] using hunf
  · intro hlen
    have hne1 : (fs.length == 1) = false := by
      simp only [beq_eq_false_iff_ne, ne_eq]
      omega
    constructor
    · intro hdiff
      have hd : hasDiffPair fs = true := (hasDiffPair_iff fs).mpr hdiff
      rw [hunf]
      simp [get_unique_fact_of_candidates, hne1, hd]
    · intro hsame
      have hd : hasDiffPair fs = false := by
        rw [Bool.eq_false_iff, ne_eq, hasDiffPair_iff]
        push_neg
        exact fun a ha b hb => hsame a ha b hb
      rcases fs with - | ⟨f, rest⟩
      · simp at hlen
      · refine ⟨f, rest, rfl, ?_⟩
        rw [hunf]
        simp [get_unique_fact_of_candidates, hne1, hd]
  · intro fuel rel h
    have hg : get_unique_fact m q ctx = .error .indexError := by
      rw [h] at hunf
      simpa [get_unique_fact_of_candidates, hasDiffPair] using hunf
    simp only [extract_items, hg]
    rfl
  · intro fuel rel f h hnil
    have hg : get_unique_fact m q ctx = .ok f := by
      rw [h] at hunf
      simpa [get_unique_fact_of_candidates] using hunf
    simp only [extract_items, hg]
    rw [except_bind_ok, hnil]
    rfl

/-- Witness for `C10_unique_fact_lookup`: in a model with a single nil fact
bound to concept `q` and context `c`, the lookup for an unused context is
the `IndexError`, the lookup for `c` returns the fact, and extraction of
the nil fact is the absent result `none`. -/
theorem C10_unique_fact_lookup_witness :
    get_unique_fact ⟨[⟨"q", "c", 5, "5", true, "JPY"⟩], [], [], []⟩ "q" "cOther"
      = .error .indexError ∧
    get_unique_fact ⟨[⟨"q", "c", 5, "5", true, "JPY"⟩], [], [], []⟩ "q" "c"
      = .ok ⟨"q", "c", 5, "5", true, "JPY"⟩ ∧
    extract_items ⟨[⟨"q", "c", 5, "5", true, "JPY"⟩], [], [], []⟩ 3 "q" "c" none
      = .ok none :=
  ⟨(C10_unique_fact_lookup ⟨[⟨"q", "c", 5, "5", true, "JPY"⟩], [], [], []⟩
      "q" "cOther" [] (by decide)).1 rfl,
   (C10_unique_fact_lookup ⟨[⟨"q", "c", 5, "5", true, "JPY"⟩], [], [], []⟩
      "q" "c" [⟨"q", "c", 5, "5", true, "JPY"⟩] (by decide)).2.1 _ rfl,
   (C10_unique_fact_lookup ⟨[⟨"q", "c", 5, "5", true, "JPY"⟩], [], [], []⟩
      "q" "c" [⟨"q", "c", 5, "5", true, "JPY"⟩] (by decide)).2.2.2.2 2 none
      _ rfl rfl⟩

/-! ## mapM over Except: helpers shared by the extractor claims -/

/-- Every element of a successful `mapM` comes from a successful element. -/
theorem mapM_ok_mem {ε α β : Type} (f : α → Except ε β) (l : List α)
    (out : List β) (h : l.mapM f = .ok out) :
    ∀ b ∈ out, ∃ a ∈ l, f a = .ok b := by
  induction l generalizing out with
  | nil =>
    rw [List.mapM_nil] at h
    cases h
    simp
  | cons a as ih =>
    rw [List.mapM_cons] at h
    cases hfa : f a with
    | error e => rw [hfa] at h; cases h
    | ok b0 =>
      rw [hfa, except_bind_ok] at h
      cases hrest : as.mapM f with
      | error e => rw [hrest] at h; cases h
      | ok bs =>
        rw [hrest, except_bind_ok] at h
        cases h
        intro b hb
        rcases List.mem_cons.mp hb with hb | hb
        · exact ⟨a, List.mem_cons_self a as, hb ▸ hfa⟩
        · obtain ⟨a', ha', hfa'⟩ := ih bs hrest b hb
          exact ⟨a', List.mem_cons_of_mem a ha', hfa'⟩

/-- A failing element makes the whole `mapM` fail. -/
theorem mapM_error_of_mem {ε α β : Type} (f : α → Except ε β) (l : List α)
    (a : α) (ha : a ∈ l) (e : ε) (hfa : f a = .error e) :
    ∃ e', l.mapM f = .error e' := by
  induction l with
  | nil => cases ha
  | cons hd tl ih =>
    rw [List.mapM_cons]
    cases hfhd : f hd with
    | error e0 => exact ⟨e0, rfl⟩
    | ok b =>
      rw [except_bind_ok]
      rcases List.mem_cons.mp ha with rfl | ha'
      · rw [hfhd] at hfa; cases hfa
      · obtain ⟨e', he'⟩ := ih ha'
        rw [he']
        exact ⟨e', rfl⟩

/-- Pointwise success makes `mapM` the map of the results. -/
theorem mapM_ok_of_forall {ε α β : Type} (f : α → Except ε β) (g : α → β)
    (l : List α) (h : ∀ a ∈ l, f a = .ok (g a)) :
    l.mapM f = .ok (l.map g) := by
  induction l with
  | nil => rw [List.mapM_nil]; rfl
  | cons a as ih =>
    rw [List.mapM_cons, h a (List.mem_cons_self a as), except_bind_ok,
      ih (fun a ha => h a (List.mem_cons_of_mem _ ha)), except_bind_ok]
    rfl

/-! ## C7: polarity of the expenses / netSales partition -/

mutual
/-- The single-polarity test is the conjunction of the polarity over the
preorder enumeration of the subtree. -/
theorem is_balance_all_same_iff (balance : Balance) (i : Item) :
    is_decendant_items_balance_all_same balance i = true ↔
      ∀ y ∈ subtreeItems i, y.balance = some balance := by
  obtain ⟨nm, v, q, b, w, o, is⟩ := i
  rw [is_decendant_items_balance_all_same, subtreeItems]
  by_cases hb : b = some balance
  · subst hb
    simp only [bne_self_eq_false, Bool.false_eq_true, if_false,
      is_balance_all_same_list_iff balance is, List.mem_cons]
    constructor
    · rintro h y (rfl | hy)
      · rfl
      · exact h y hy
    · intro h y hy
      exact h y (Or.inr hy)
  · have hb' : (b != some balance) = true := by
      simpa using hb
    rw [hb', if_pos rfl]
    constructor
    · intro hfalse
      exact absurd hfalse (by simp)
    · intro hall
      exfalso
      exact (by simpa [Item.balance] using hb :
          (Item.mk nm v q b w o is).balance ≠ some balance)
        (hall _ (List.mem_cons_self _ _))

theorem is_balance_all_same_list_iff (balance : Balance) (l : List Item) :
    is_decendant_items_balance_all_same_list balance l = true ↔
      ∀ y ∈ subtreeItemsList l, y.balance = some balance := by
  match l with
  | [] =>
    rw [is_decendant_items_balance_all_same_list, subtreeItemsList]
    simp
  | c :: cs =>
    rw [is_decendant_items_balance_all_same_list, subtreeItemsList]
    simp only [Bool.and_eq_true, is_balance_all_same_iff balance c,
      is_balance_all_same_list_iff balance cs, List.mem_append]
    constructor
    · rintro ⟨h1, h2⟩ y (hy | hy)
      · exact h1 y hy
      · exact h2 y hy
    · intro h
      exact ⟨fun y hy => h y (Or.inl hy), fun y hy => h y (Or.inr hy)⟩
end

mutual
/-- Invariant of the partition recursion: if both accumulators already
satisfy their polarity, the outputs do. -/
theorem extract_rec_sound (i : Item) (e n : List Item)
    (he : ∀ x ∈ e, is_decendant_items_balance_all_same .debit x = true)
    (hn : ∀ x ∈ n, is_decendant_items_balance_all_same .credit x = true) :
    (∀ x ∈ (extract_expenses_and_net_sales_recursively i e n).1,
        is_decendant_items_balance_all_same .debit x = true) ∧
    (∀ x ∈ (extract_expenses_and_net_sales_recursively i e n).2,
        is_decendant_items_balance_all_same .credit x = true) := by
  obtain ⟨nm, v, q, b, w, o, is⟩ := i
  rw [extract_expenses_and_net_sales_recursively]
  by_cases hd : is_decendant_items_balance_all_same .debit (.mk nm v q b w o is) = true
  · simp only [hd, if_true]
    refine ⟨?_, hn⟩
    intro x hx
    rcases List.mem_append.mp hx with hx | hx
    · exact he x hx
    · rw [List.mem_singleton.mp hx]
      exact hd
  · rw [Bool.not_eq_true] at hd
    simp only [hd, Bool.false_eq_true, if_false]
    by_cases hc : is_decendant_items_balance_all_same .credit (.mk nm v q b w o is) = true
    · simp only [hc, if_true]
      refine ⟨he, ?_⟩
      intro x hx
      rcases List.mem_append.mp hx with hx | hx
      · exact hn x hx
      · rw [List.mem_singleton.mp hx]
        exact hc
    · rw [Bool.not_eq_true] at hc
      simp only [hc, Bool.false_eq_true, if_false]
      exact extract_list_sound is e n he hn

theorem extract_list_sound (l : List Item) (e n : List Item)
    (he : ∀ x ∈ e, is_decendant_items_balance_all_same .debit x = true)
    (hn : ∀ x ∈ n, is_decendant_items_balance_all_same .credit x = true) :
    (∀ x ∈ (extract_expenses_and_net_sales_list l e n).1,
        is_decendant_items_balance_all_same .debit x = true) ∧
    (∀ x ∈ (extract_expenses_and_net_sales_list l e n).2,
        is_decendant_items_balance_all_same .credit x = true) := by
  match l with
  | [] =>
    rw [extract_expenses_and_net_sales_list]
    exact ⟨he, hn⟩
  | c :: cs =>
    rw [extract_expenses_and_net_sales_list]
    have h1 := extract_rec_sound c e n he hn
    exact extract_list_sound cs _ _ h1.1 h1.2
end

/-- Success inversion for `pl_extract_one`: the produced instance is built
from the extracted tree and its operating-income item. -/
theorem pl_extract_one_ok_inv (m : XbrlModel) (fuel : Nat)
    (plRootQname : String) (consolidated : Bool) (roleType : String)
    (context : Ctx) (inst : PLInstance)
    (h : pl_extract_one m fuel plRootQname consolidated roleType context = .ok inst) :
    ∃ (plf : Fact) (pl_item oi : Item),
      get_unique_fact m plRootQname context.id = .ok plf ∧
      extract_items m fuel plRootQname context.id none = .ok (some pl_item) ∧
      extract_operating_income pl_item = some oi ∧
      inst = { operatingIncome := oi,
               expenses := (extract_expenses_and_net_sales oi).1,
               netSales := (extract_expenses_and_net_sales oi).2,
               profitAndLoss := pl_item, consolidated := consolidated,
               durationFrom := context.startDate,
               durationTo := context.endDate,
               unit := plf.unitId, roleType := roleType } := by
  rw [pl_extract_one] at h
  cases hfact : get_unique_fact m plRootQname context.id with
  | error e => rw [hfact] at h; cases h
  | ok plf =>
    rw [hfact, except_bind_ok] at h
    cases hitems : extract_items m fuel plRootQname context.id none with
    | error e => rw [hitems] at h; cases h
    | ok itemOpt =>
      rw [hitems, except_bind_ok] at h
      cases itemOpt with
      | none =>
        dsimp only at h
        cases h
      | some pl_item =>
        dsimp only at h
        cases hoi : extract_operating_income pl_item with
        | none =>
          rw [hoi] at h
          dsimp only at h
          cases h
        | some oi =>
          rw [hoi] at h
          dsimp only at h
          cases h
          exact ⟨plf, pl_item, oi, rfl, rfl, hoi, rfl⟩

/-- C7: in every `PLInstance` the extractor produces, every item of its
`expenses` list carries debit balance on itself and on every descendant,
and every item of its `netSales` list carries credit balance on itself and
on every descendant (mixed-polarity subtrees are split, never appended). -/
theorem C7_expenses_net_sales_polarity (m : XbrlModel) (fuel : Nat)
    (plRootQname : String) (consolidated : Bool) (roleType : String)
    (contexts : List Ctx) (insts : List PLInstance)
    (h : pl_extract_instances m fuel plRootQname consolidated roleType contexts
      = .ok insts) :
    ∀ inst ∈ insts,
      (∀ x ∈ inst.expenses, ∀ y ∈ subtreeItems x, y.balance = some .debit) ∧
      (∀ x ∈ inst.netSales, ∀ y ∈ subtreeItems x, y.balance = some .credit) := by
  intro inst hinst
  obtain ⟨c, hc, hone⟩ := mapM_ok_mem _ _ _ h inst hinst
  obtain ⟨plf, pl_item, oi, -, -, -, hrec⟩ :=
    pl_extract_one_ok_inv m fuel plRootQname consolidated roleType c inst hone
  have hsound := extract_rec_sound oi [] []
    (by intro x hx; cases hx) (by intro x hx; cases hx)
  subst hrec
  constructor
  · intro x hx y hy
    have := hsound.1 x hx
    exact (is_balance_all_same_iff .debit x).mp this y hy
  · intro x hx y hy
    have := hsound.2 x hx
    exact (is_balance_all_same_iff .credit x).mp this y hy

/-- Witness for `C7_expenses_net_sales_polarity`: a one-fact model whose PL
root is itself the (credit) operating-income concept; the single produced
instance puts the item into `netSales`, and every node of its subtree is
credit. -/
theorem C7_expenses_net_sales_polarity_witness :
    (Item.mk "営業利益" 100 "jppfs_cor:OperatingIncome"
        (some Balance.credit) none none []).balance = some Balance.credit := by
  have h := C7_expenses_net_sales_polarity
    ⟨[⟨"jppfs_cor:OperatingIncome", "CurrentYearDuration", 100, "100", false, "JPY"⟩],
     [], [⟨"jppfs_cor:OperatingIncome", some .credit, "営業利益", "Operating income"⟩], []⟩
    2 "jppfs_cor:OperatingIncome" false "role"
    [⟨"CurrentYearDuration", ⟨2022, 12, 31⟩, ⟨2022, 1, 1⟩, ⟨2022, 12, 31⟩⟩]
    [⟨⟨"営業利益", 100, "jppfs_cor:OperatingIncome", some .credit, none, none, []⟩,
      [⟨"営業利益", 100, "jppfs_cor:OperatingIncome", some .credit, none, none, []⟩],
      [],
      ⟨"営業利益", 100, "jppfs_cor:OperatingIncome", some .credit, none, none, []⟩,
      false, ⟨2022, 1, 1⟩, ⟨2022, 12, 31⟩, "JPY", "role"⟩]
    rfl
  exact (h _ (List.mem_singleton.mpr rfl)).2 _ (List.mem_singleton.mpr rfl)
    _ (List.mem_singleton.mpr rfl)

/-! ## C5: locating the operating-income node -/

mutual
/-- The depth-first qname search is the first match of the preorder
enumeration. -/
theorem get_qname_item_recursively_eq_find (qnames : List String) (i : Item) :
    get_qname_item_recursively qnames i
      = (subtreeItems i).find? (fun x => qnames.contains x.qname) := by
  obtain ⟨nm, v, q, b, w, o, is⟩ := i
  rw [get_qname_item_recursively, subtreeItems]
  by_cases hq : qnames.contains q = true
  · rw [if_pos hq, List.find?_cons_of_pos _ (by simpa [Item.qname] using hq)]
  · rw [if_neg hq, List.find?_cons_of_neg _ (by simpa [Item.qname] using hq)]
    exact get_qname_item_recursively_list_eq_find qnames is

theorem get_qname_item_recursively_list_eq_find (qnames : List String)
    (l : List Item) :
    get_qname_item_recursively_list qnames l
      = (subtreeItemsList l).find? (fun x => qnames.contains x.qname) := by
  match l with
  | [] =>
    rw [get_qname_item_recursively_list, subtreeItemsList]
    rfl
  | c :: cs =>
    rw [get_qname_item_recursively_list, subtreeItemsList, List.find?_append,
      ← get_qname_item_recursively_eq_find qnames c,
      ← get_qname_item_recursively_list_eq_find qnames cs]
    cases get_qname_item_recursively qnames c <;> simp [Option.orElse]
end

/-- C5 (amended): the operating-income node is the first match of a
depth-first preorder qname search through the whole subtree under the
net-profit/loss item; when that search fails, an ordinary-income node found
by the same search is promoted exactly when a bank-specific qname occurs in
its subtree; when neither succeeds, `extract_instances` raises — so a
context whose tree lacks both nodes aborts the extraction of every context
of that resolved concept (not just its own). -/
theorem C5_operating_income_search :
    (∀ (qnames : List String) (i : Item),
      get_qname_item_recursively qnames i
        = (subtreeItems i).find? (fun x => qnames.contains x.qname)) ∧
    (∀ (parent oi : Item),
      (subtreeItems parent).find?
          (fun x => operating_income_qnames.contains x.qname) = some oi →
      extract_operating_income parent = some oi) ∧
    (∀ (parent oi : Item),
      (subtreeItems parent).find?
          (fun x => operating_income_qnames.contains x.qname) = none →
      (subtreeItems parent).find?
          (fun x => ordinary_income_qnames.contains x.qname) = some oi →
      extract_operating_income parent =
        (if ((subtreeItems oi).find?
            (fun x => ordinary_income_bnk_qnames.contains x.qname)).isSome
         then some oi else none)) ∧
    (∀ parent : Item,
      (subtreeItems parent).find?
          (fun x => operating_income_qnames.contains x.qname) = none →
      (subtreeItems parent).find?
          (fun x => ordinary_income_qnames.contains x.qname) = none →
      extract_operating_income parent = none) ∧
    (∀ (m : XbrlModel) (fuel : Nat) (plRootQname : String)
        (consolidated : Bool) (roleType : String) (c : Ctx) (plf : Fact)
        (pl_item : Item),
      get_unique_fact m plRootQname c.id = .ok plf →
      extract_items m fuel plRootQname c.id none = .ok (some pl_item) →
      extract_operating_income pl_item = none →
      pl_extract_one m fuel plRootQname consolidated roleType c =
        .error (.valueError "Operating income item should not be None.")) ∧
    (∀ (m : XbrlModel) (fuel : Nat) (plRootQname : String)
        (consolidated : Bool) (roleType : String) (contexts : List Ctx)
        (c : Ctx) (e : XErr),
      c ∈ contexts →
      pl_extract_one m fuel plRootQname consolidated roleType c = .error e →
      ∃ e', pl_extract_instances m fuel plRootQname consolidated roleType
        contexts = .error e') := by
  refine ⟨get_qname_item_recursively_eq_find, ?_, ?_, ?_, ?_, ?_⟩
  · intro parent oi h
    rw [extract_operating_income, get_qname_item_recursively_eq_find, h]
  · intro parent oi hnone hoi
    rw [extract_operating_income, get_qname_item_recursively_eq_find, hnone]
    dsimp only
    rw [extract_ordinaly_income_bnk, get_qname_item_recursively_eq_find, hoi]
    dsimp only
    rw [get_qname_item_recursively_eq_find]
    cases hb : (subtreeItems oi).find?
        (fun x => ordinary_income_bnk_qnames.contains x.qname) <;>
      simp [hb]
  · intro parent hnone1 hnone2
    rw [extract_operating_income, get_qname_item_recursively_eq_find, hnone1]
    dsimp only
    rw [extract_ordinaly_income_bnk, get_qname_item_recursively_eq_find, hnone2]
  · intro m fuel plRootQname consolidated roleType c plf pl_item hf hi hoi
    rw [pl_extract_one, hf, except_bind_ok, hi, except_bind_ok]
    dsimp only
    rw [hoi]
    rfl
  · intro m fuel plRootQname consolidated roleType contexts c e hc he
    exact mapM_error_of_mem _ contexts c hc e he

/-- Counterexample for C5 as stated: in a two-context model whose first
context's tree lacks an operating-income (and any ordinary-income) node
while the second context's tree has one, the whole `extract_instances`
call errors out — the second context, which succeeds on its own, yields no
instance, so the failure is not confined to the failing context. -/
theorem C5_operating_income_counterexample :
    pl_extract_instances
      ⟨[⟨"jppfs_cor:ProfitLoss", "CurrentYearDuration", 50, "50", false, "JPY"⟩,
        ⟨"jppfs_cor:ProfitLoss", "Prior1YearDuration", 40, "40", false, "JPY"⟩,
        ⟨"jppfs_cor:OperatingIncome", "CurrentYearDuration", 30, "30", true, "JPY"⟩,
        ⟨"jppfs_cor:OperatingIncome", "Prior1YearDuration", 30, "30", false, "JPY"⟩],
       [],
       [⟨"jppfs_cor:ProfitLoss", some .credit, "当期純利益", "Profit"⟩,
        ⟨"jppfs_cor:OperatingIncome", some .credit, "営業利益", "Operating income"⟩],
       [⟨"jppfs_cor:ProfitLoss", "jppfs_cor:OperatingIncome", 1, 1⟩]⟩
      3 "jppfs_cor:ProfitLoss" false "role"
      [⟨"CurrentYearDuration", ⟨2023, 12, 31⟩, ⟨2023, 1, 1⟩, ⟨2023, 12, 31⟩⟩,
       ⟨"Prior1YearDuration", ⟨2022, 12, 31⟩, ⟨2022, 1, 1⟩, ⟨2022, 12, 31⟩⟩]
      = .error (.valueError "Operating income item should not be None.") ∧
    (∃ inst, pl_extract_one
      ⟨[⟨"jppfs_cor:ProfitLoss", "CurrentYearDuration", 50, "50", false, "JPY"⟩,
        ⟨"jppfs_cor:ProfitLoss", "Prior1YearDuration", 40, "40", false, "JPY"⟩,
        ⟨"jppfs_cor:OperatingIncome", "CurrentYearDuration", 30, "30", true, "JPY"⟩,
        ⟨"jppfs_cor:OperatingIncome", "Prior1YearDuration", 30, "30", false, "JPY"⟩],
       [],
       [⟨"jppfs_cor:ProfitLoss", some .credit, "当期純利益", "Profit"⟩,
        ⟨"jppfs_cor:OperatingIncome", some .credit, "営業利益", "Operating income"⟩],
       [⟨"jppfs_cor:ProfitLoss", "jppfs_cor:OperatingIncome", 1, 1⟩]⟩
      3 "jppfs_cor:ProfitLoss" false "role"
      ⟨"Prior1YearDuration", ⟨2022, 12, 31⟩, ⟨2022, 1, 1⟩, ⟨2022, 12, 31⟩⟩
      = .ok inst) :=
  ⟨rfl, ⟨_, rfl⟩⟩

/-- Witness for `C5_operating_income_search`: the bank fallback applied to
a concrete ordinary-income tree carrying a bank marker, and the
error-abort conclusion applied to the two-context counterexample model. -/
theorem C5_operating_income_search_witness :
    extract_operating_income
      (.mk "経常収益" 10 "jppfs_cor:OrdinaryIncome" (some Balance.credit) none none
        [.mk "経常収益銀行" 10 "jppfs_cor:OrdinaryIncomeBNK" (some Balance.credit)
          (some 1) (some 1) []])
      = some (.mk "経常収益" 10 "jppfs_cor:OrdinaryIncome" (some Balance.credit)
          none none
          [.mk "経常収益銀行" 10 "jppfs_cor:OrdinaryIncomeBNK" (some Balance.credit)
            (some 1) (some 1) []]) := by
  have h := C5_operating_income_search.2.2.1
    (.mk "経常収益" 10 "jppfs_cor:OrdinaryIncome" (some Balance.credit) none none
      [.mk "経常収益銀行" 10 "jppfs_cor:OrdinaryIncomeBNK" (some Balance.credit)
        (some 1) (some 1) []])
    (.mk "経常収益" 10 "jppfs_cor:OrdinaryIncome" (some Balance.credit) none none
      [.mk "経常収益銀行" 10 "jppfs_cor:OrdinaryIncomeBNK" (some Balance.credit)
        (some 1) (some 1) []])
    rfl rfl
  simpa using h

/-! ## C3: the credit-side balance-sheet root -/

/-- C3 (amended): for a context whose debit and credit trees and debit root
fact are all available, `extract_instances` produces the positional
instance when the credit tree has exactly two immediate children (first →
`liabilities`, second → `net_assets`), and raises
`ValueError("Credit item should have 2 items.")` otherwise; and any
context failing inside the loop makes the whole `extract_instances` call
fail, so no `BSInstance` is produced for any context of that resolved
concept. -/
theorem C3_bs_credit_children (m : XbrlModel) (fuel : Nat)
    (qd qc : String) (cons : Bool) (role : String) :
    (∀ (c : Ctx) (assets credit : Item) (f : Fact),
      extract_items m fuel qd c.id none = .ok (some assets) →
      extract_items m fuel qc c.id none = .ok (some credit) →
      get_unique_fact m qd c.id = .ok f →
      (∀ l n, credit.items = [l, n] →
        bs_extract_one m fuel qd qc cons role c =
          .ok ⟨assets, l, n, cons, c.instantDate, f.unitId, role⟩) ∧
      (∀ its : List Item, credit.items = its → its.length ≠ 2 →
        bs_extract_one m fuel qd qc cons role c =
          .error (.valueError "Credit item should have 2 items."))) ∧
    (∀ (contexts : List Ctx) (c : Ctx) (e : XErr), c ∈ contexts →
      bs_extract_one m fuel qd qc cons role c = .error e →
      ∃ e', bs_extract_instances m fuel qd qc cons role contexts
        = .error e') := by
  constructor
  · intro c assets credit f h1 h2 h3
    constructor
    · intro l n hits
      rw [bs_extract_one, h1, except_bind_ok, h2, except_bind_ok, h3,
        except_bind_ok]
      dsimp only
      rw [hits]
      rfl
    · intro its hits hlen
      rw [bs_extract_one, h1, except_bind_ok, h2, except_bind_ok, h3,
        except_bind_ok]
      dsimp only
      rw [hits]
      match its, hlen with
      | [], _ => rfl
      | [x], _ => rfl
      | [x, y], h => exact absurd rfl h
      | x :: y :: z :: rest, _ => rfl
  · intro contexts c e hc he
    exact mapM_error_of_mem _ contexts c hc e he

/-- Counterexample for C3 as stated: two contexts; in the first the credit
tree has a single child (the other child's fact is nil), in the second it
has two.  The whole `extract_instances` call errors out, so the second
context — which succeeds on its own — yields no instance: the failing
context is not merely skipped. -/
theorem C3_bs_credit_children_counterexample :
    bs_extract_instances
      ⟨[⟨"Assets", "CurrentYearInstant", 100, "100", false, "JPY"⟩,
        ⟨"Assets", "Prior1YearInstant", 90, "90", false, "JPY"⟩,
        ⟨"LiabilitiesAndNetAssets", "CurrentYearInstant", 100, "100", false, "JPY"⟩,
        ⟨"LiabilitiesAndNetAssets", "Prior1YearInstant", 90, "90", false, "JPY"⟩,
        ⟨"Liabilities", "CurrentYearInstant", 60, "60", false, "JPY"⟩,
        ⟨"Liabilities", "Prior1YearInstant", 55, "55", false, "JPY"⟩,
        ⟨"NetAssets", "CurrentYearInstant", 40, "40", true, "JPY"⟩,
        ⟨"NetAssets", "Prior1YearInstant", 35, "35", false, "JPY"⟩],
       [],
       [⟨"Assets", some .debit, "資産", "Assets"⟩,
        ⟨"LiabilitiesAndNetAssets", some .credit, "負債純資産", "Liabilities and net assets"⟩,
        ⟨"Liabilities", some .credit, "負債", "Liabilities"⟩,
        ⟨"NetAssets", some .credit, "純資産", "Net assets"⟩],
       [⟨"LiabilitiesAndNetAssets", "Liabilities", 1, 1⟩,
        ⟨"LiabilitiesAndNetAssets", "NetAssets", 1, 2⟩]⟩
      3 "Assets" "LiabilitiesAndNetAssets" false "role"
      [⟨"CurrentYearInstant", ⟨2023, 12, 31⟩, ⟨2023, 1, 1⟩, ⟨2023, 12, 31⟩⟩,
       ⟨"Prior1YearInstant", ⟨2022, 12, 31⟩, ⟨2022, 1, 1⟩, ⟨2022, 12, 31⟩⟩]
      = .error (.valueError "Credit item should have 2 items.") ∧
    (∃ inst, bs_extract_one
      ⟨[⟨"Assets", "CurrentYearInstant", 100, "100", false, "JPY"⟩,
        ⟨"Assets", "Prior1YearInstant", 90, "90", false, "JPY"⟩,
        ⟨"LiabilitiesAndNetAssets", "CurrentYearInstant", 100, "100", false, "JPY"⟩,
        ⟨"LiabilitiesAndNetAssets", "Prior1YearInstant", 90, "90", false, "JPY"⟩,
        ⟨"Liabilities", "CurrentYearInstant", 60, "60", false, "JPY"⟩,
        ⟨"Liabilities", "Prior1YearInstant", 55, "55", false, "JPY"⟩,
        ⟨"NetAssets", "CurrentYearInstant", 40, "40", true, "JPY"⟩,
        ⟨"NetAssets", "Prior1YearInstant", 35, "35", false, "JPY"⟩],
       [],
       [⟨"Assets", some .debit, "資産", "Assets"⟩,
        ⟨"LiabilitiesAndNetAssets", some .credit, "負債純資産", "Liabilities and net assets"⟩,
        ⟨"Liabilities", some .credit, "負債", "Liabilities"⟩,
        ⟨"NetAssets", some .credit, "純資産", "Net assets"⟩],
       [⟨"LiabilitiesAndNetAssets", "Liabilities", 1, 1⟩,
        ⟨"LiabilitiesAndNetAssets", "NetAssets", 1, 2⟩]⟩
      3 "Assets" "LiabilitiesAndNetAssets" false "role"
      ⟨"Prior1YearInstant", ⟨2022, 12, 31⟩, ⟨2022, 1, 1⟩, ⟨2022, 12, 31⟩⟩
      = .ok inst) :=
  ⟨rfl, ⟨_, rfl⟩⟩

/-- Witness for `C3_bs_credit_children`: in the well-formed context of the
counterexample model the instance is produced with the credit root's first
child as `liabilities` and second child as `net_assets`. -/
theorem C3_bs_credit_children_witness :
    bs_extract_one
      ⟨[⟨"Assets", "CurrentYearInstant", 100, "100", false, "JPY"⟩,
        ⟨"Assets", "Prior1YearInstant", 90, "90", false, "JPY"⟩,
        ⟨"LiabilitiesAndNetAssets", "CurrentYearInstant", 100, "100", false, "JPY"⟩,
        ⟨"LiabilitiesAndNetAssets", "Prior1YearInstant", 90, "90", false, "JPY"⟩,
        ⟨"Liabilities", "CurrentYearInstant", 60, "60", false, "JPY"⟩,
        ⟨"Liabilities", "Prior1YearInstant", 55, "55", false, "JPY"⟩,
        ⟨"NetAssets", "CurrentYearInstant", 40, "40", true, "JPY"⟩,
        ⟨"NetAssets", "Prior1YearInstant", 35, "35", false, "JPY"⟩],
       [],
       [⟨"Assets", some .debit, "資産", "Assets"⟩,
        ⟨"LiabilitiesAndNetAssets", some .credit, "負債純資産", "Liabilities and net assets"⟩,
        ⟨"Liabilities", some .credit, "負債", "Liabilities"⟩,
        ⟨"NetAssets", some .credit, "純資産", "Net assets"⟩],
       [⟨"LiabilitiesAndNetAssets", "Liabilities", 1, 1⟩,
        ⟨"LiabilitiesAndNetAssets", "NetAssets", 1, 2⟩]⟩
      3 "Assets" "LiabilitiesAndNetAssets" false "role"
      ⟨"Prior1YearInstant", ⟨2022, 12, 31⟩, ⟨2022, 1, 1⟩, ⟨2022, 12, 31⟩⟩
      = .ok ⟨⟨"資産", 90, "Assets", some .debit, none, none, []⟩,
             ⟨"負債", 55, "Liabilities", some .credit, some 1, some 1, []⟩,
             ⟨"純資産", 35, "NetAssets", some .credit, some 1, some 2, []⟩,
             false, ⟨2022, 12, 31⟩, "JPY", "role"⟩ :=
  ((C3_bs_credit_children
      ⟨[⟨"Assets", "CurrentYearInstant", 100, "100", false, "JPY"⟩,
        ⟨"Assets", "Prior1YearInstant", 90, "90", false, "JPY"⟩,
        ⟨"LiabilitiesAndNetAssets", "CurrentYearInstant", 100, "100", false, "JPY"⟩,
        ⟨"LiabilitiesAndNetAssets", "Prior1YearInstant", 90, "90", false, "JPY"⟩,
        ⟨"Liabilities", "CurrentYearInstant", 60, "60", false, "JPY"⟩,
        ⟨"Liabilities", "Prior1YearInstant", 55, "55", false, "JPY"⟩,
        ⟨"NetAssets", "CurrentYearInstant", 40, "40", true, "JPY"⟩,
        ⟨"NetAssets", "Prior1YearInstant", 35, "35", false, "JPY"⟩],
       [],
       [⟨"Assets", some .debit, "資産", "Assets"⟩,
        ⟨"LiabilitiesAndNetAssets", some .credit, "負債純資産", "Liabilities and net assets"⟩,
        ⟨"Liabilities", some .credit, "負債", "Liabilities"⟩,
        ⟨"NetAssets", some .credit, "純資産", "Net assets"⟩],
       [⟨"LiabilitiesAndNetAssets", "Liabilities", 1, 1⟩,
        ⟨"LiabilitiesAndNetAssets", "NetAssets", 1, 2⟩]⟩
      3 "Assets" "LiabilitiesAndNetAssets" false "role").1
    ⟨"Prior1YearInstant", ⟨2022, 12, 31⟩, ⟨2022, 1, 1⟩, ⟨2022, 12, 31⟩⟩
    ⟨"資産", 90, "Assets", some .debit, none, none, []⟩
    ⟨"負債純資産", 90, "LiabilitiesAndNetAssets", some .credit, none, none,
      [⟨"負債", 55, "Liabilities", some .credit, some 1, some 1, []⟩,
       ⟨"純資産", 35, "NetAssets", some .credit, some 1, some 2, []⟩]⟩
    ⟨"Assets", "Prior1YearInstant", 90, "90", false, "JPY"⟩
    rfl rfl rfl).1
    ⟨"負債", 55, "Liabilities", some .credit, some 1, some 1, []⟩
    ⟨"純資産", 35, "NetAssets", some .credit, some 1, some 2, []⟩
    rfl

/-! ## C2: context selection is the intersection of per-root context sets -/

/-- Membership in `get_context_used_in_concept`: a context id is used by a
concept iff a fact of the concept exists in that context, in the requested
consolidation scope, with a standard context id. -/
theorem mem_get_context_used (m : XbrlModel) (r : String) (cons : Bool)
    (c : String) :
    c ∈ get_context_used_in_concept m r cons ↔
      ∃ f ∈ m.facts, f.qname = r ∧ f.contextId = c ∧
        is_consolidated_fact f = cons ∧
        is_standard_context f.contextId = true := by
  simp only [get_context_used_in_concept, List.mem_dedup, List.mem_map,
    List.mem_filter, Bool.and_eq_true, beq_iff_eq]
  constructor
  · rintro ⟨f, ⟨hmem, ⟨hq, hcons⟩, hstd⟩, hctx⟩
    exact ⟨f, hmem, hq, hctx, hcons, hstd⟩
  · rintro ⟨f, hmem, hq, hctx, hcons, hstd⟩
    exact ⟨f, ⟨hmem, ⟨hq, hcons⟩, hstd⟩, hctx⟩

/-- Membership through the fold of filters in
`FinancialStatementConcept.__init__`. -/
theorem mem_inter_fold (m : XbrlModel) (cons : Bool) :
    ∀ (rs : List String) (init : List String) (c : String),
      (c ∈ rs.foldl (fun acc root => acc.filter
          (fun c => (get_context_used_in_concept m root cons).contains c)) init ↔
        c ∈ init ∧ ∀ r ∈ rs, c ∈ get_context_used_in_concept m r cons) := by
  intro rs
  induction rs with
  | nil => intro init c; simp
  | cons r rest ih =>
    intro init c
    rw [List.foldl_cons, ih]
    simp only [List.mem_filter, List.mem_cons]
    constructor
    · rintro ⟨⟨hinit, hr⟩, hrest⟩
      refine ⟨hinit, ?_⟩
      rintro r' (rfl | hr')
      · simpa using hr
      · exact hrest r' hr'
    · rintro ⟨hinit, hall⟩
      exact ⟨⟨hinit, by simpa using hall r (Or.inl rfl)⟩,
        fun r' hr' => hall r' (Or.inr hr')⟩

/-- C2: for a resolved concept with a non-empty root-concept list, the
selected reporting contexts are exactly the intersection, over all root
concepts, of the contexts having a fact on that root concept in the
requested consolidation scope (the `_NonConsolidatedMember` marker of the
context identifier) and with an identifier in the enumerated
`STANDARD_CONTEXT_ID` list. -/
theorem C2_context_intersection (m : XbrlModel) (roots : List String)
    (consolidated : Bool) (hroots : roots ≠ []) :
    ∃ cs, concept_contexts m roots consolidated = .ok cs ∧
      ∀ c : String, (c ∈ cs ↔
        ∀ r ∈ roots, ∃ f ∈ m.facts, f.qname = r ∧ f.contextId = c ∧
          is_consolidated_fact f = consolidated ∧
          is_standard_context f.contextId = true) := by
  match roots, hroots with
  | r :: rs, _ =>
    refine ⟨_, rfl, ?_⟩
    intro c
    rw [mem_inter_fold m consolidated rs _ c]
    simp only [List.mem_cons]
    constructor
    · rintro ⟨hr, hrest⟩ r' (rfl | hr')
      · exact (mem_get_context_used m r' consolidated c).mp hr
      · exact (mem_get_context_used m r' consolidated c).mp (hrest r' hr')
    · intro hall
      exact ⟨(mem_get_context_used m r consolidated c).mpr (hall r (Or.inl rfl)),
        fun r' hr' => (mem_get_context_used m r' consolidated c).mpr
          (hall r' (Or.inr hr'))⟩

/-- Witness for `C2_context_intersection`: concept `A` reports only the
current-year instant, concept `B` also the prior-year instant; the
intersection keeps the current-year context and drops the prior-year one. -/
theorem C2_context_intersection_witness :
    ∃ cs, concept_contexts
        ⟨[⟨"A", "CurrentYearInstant", 1, "1", false, "JPY"⟩,
          ⟨"B", "CurrentYearInstant", 2, "2", false, "JPY"⟩,
          ⟨"B", "Prior1YearInstant", 3, "3", false, "JPY"⟩], [], [], []⟩
        ["A", "B"] true = .ok cs ∧
      "CurrentYearInstant" ∈ cs ∧ "Prior1YearInstant" ∉ cs := by
  obtain ⟨cs, hcs, hiff⟩ := C2_context_intersection
    ⟨[⟨"A", "CurrentYearInstant", 1, "1", false, "JPY"⟩,
      ⟨"B", "CurrentYearInstant", 2, "2", false, "JPY"⟩,
      ⟨"B", "Prior1YearInstant", 3, "3", false, "JPY"⟩], [], [], []⟩
    ["A", "B"] true (by decide)
  refine ⟨cs, hcs, ?_, ?_⟩
  · refine (hiff _).mpr ?_
    intro r hr
    rcases List.mem_cons.mp hr with rfl | hr
    · exact ⟨⟨"A", "CurrentYearInstant", 1, "1", false, "JPY"⟩,
        by decide, by decide, by decide, by decide, by decide⟩
    · rcases List.mem_cons.mp hr with rfl | hr
      · exact ⟨⟨"B", "CurrentYearInstant", 2, "2", false, "JPY"⟩,
          by decide, by decide, by decide, by decide, by decide⟩
      · cases hr
  · intro hmem
    have h := (hiff _).mp hmem "A" (List.mem_cons_self _ _)
    revert h
    decide

/-! ## C4: the per-company filing loop stops at the first failing filing -/

/-- C4 (evaluating the filing loop at the failing input): with three
filings whose extraction outcomes are success, exception, success, the
company aggregate contains only the first document — the `break` in the
`except` handler prevents the third filing from being processed, so its
document never contributes. -/
theorem C4_filing_loop_break :
    process_company_filings
      [.ok ⟨[], [], []⟩, .error "boom",
       .ok ⟨[⟨⟨2022, 1, 1⟩, ⟨2022, 12, 31⟩, true, ⟨2023, 1, 1⟩, "d3"⟩], [], []⟩]
      = [⟨[], [], []⟩] ∧
    (⟨[⟨⟨2022, 1, 1⟩, ⟨2022, 12, 31⟩, true, ⟨2023, 1, 1⟩, "d3"⟩], [], []⟩ :
        FinancialStatementDocumentV2) ∉
      process_company_filings
        [.ok ⟨[], [], []⟩, .error "boom",
         .ok ⟨[⟨⟨2022, 1, 1⟩, ⟨2022, 12, 31⟩, true, ⟨2023, 1, 1⟩, "d3"⟩], [], []⟩] :=
  ⟨rfl, by decide⟩

/-! ## C8: cash-flow section placeholders -/

/-- Bind of a `pure`, definitionally. -/
theorem except_pure_bind {ε α β : Type} (a : α) (k : α → Except ε β) :
    (pure a : Except ε α) >>= k = k a := rfl

/-- C8 (amended): for a CF context whose identified sections extract
successfully, an unidentified investing / financing concept, or a present
section whose tree is `None` (nil fact), yields the placeholder sentinel
in the produced instance — the instance is still produced; but when the
**operating** concept is unidentified, the unit lookup dereferences `None`
and the extraction of that context raises instead of producing an
instance. -/
theorem C8_cf_placeholder (m : XbrlModel) (fuel : Nat) (rootOp : String)
    (rInv rFin : Option String) (cons : Bool) (role : String) (c : Ctx)
    (opItem invItem finItem : Option Item) (f : Fact)
    (hop : cf_section_extract m fuel (some rootOp) c.id = .ok opItem)
    (hinv : cf_section_extract m fuel rInv c.id = .ok invItem)
    (hfin : cf_section_extract m fuel rFin c.id = .ok finItem)
    (hf : get_unique_fact m rootOp c.id = .ok f) :
    cf_extract_one m fuel (some rootOp) rInv rFin cons role c =
      .ok { operating := opItem.getD placeholder_accounting_item,
            investing := invItem.getD placeholder_accounting_item,
            financing := finItem.getD placeholder_accounting_item,
            consolidated := cons,
            durationFrom := c.startDate, durationTo := c.endDate,
            unit := f.unitId, roleType := role } ∧
    cf_extract_one m fuel none rInv rFin cons role c =
      .error .attributeError := by
  constructor
  · rw [cf_extract_one, hop, except_bind_ok, hinv, except_bind_ok, hfin,
      except_bind_ok]
    dsimp only
    rw [hf, except_bind_ok]
    rfl
  · rw [cf_extract_one,
      show cf_section_extract m fuel none c.id =
        (pure (none : Option Item) : Except XErr (Option Item)) from rfl,
      except_pure_bind, hinv, except_bind_ok, hfin, except_bind_ok]
    rfl

/-- Counterexample for C8 as stated: a cash-flow statement whose root has
investing and financing children but no operating one.  `CFConcept.__init__`
identifies the two present sections and leaves operating `None`; extraction
of the (single) context then raises the `None`-dereference instead of
producing an instance with a placeholder operating item. -/
theorem C8_cf_placeholder_counterexample :
    cf_init
      ⟨[⟨"InvQ", "CurrentYearDuration", 20, "20", false, "JPY"⟩,
        ⟨"FinQ", "CurrentYearDuration", 30, "30", false, "JPY"⟩],
       [],
       [⟨"CFRoot", none, "キャッシュ・フロー", "Cash flows"⟩,
        ⟨"InvQ", none, "投資活動によるキャッシュ・フロー", "Net cash from investing activities"⟩,
        ⟨"FinQ", none, "財務活動によるキャッシュ・フロー", "Net cash from financing activities"⟩],
       [⟨"CFRoot", "InvQ", 1, 1⟩, ⟨"CFRoot", "FinQ", 1, 2⟩]⟩
      ["CFRoot"]
      = .ok (none, some "InvQ", some "FinQ") ∧
    cf_extract_instances
      ⟨[⟨"InvQ", "CurrentYearDuration", 20, "20", false, "JPY"⟩,
        ⟨"FinQ", "CurrentYearDuration", 30, "30", false, "JPY"⟩],
       [],
       [⟨"CFRoot", none, "キャッシュ・フロー", "Cash flows"⟩,
        ⟨"InvQ", none, "投資活動によるキャッシュ・フロー", "Net cash from investing activities"⟩,
        ⟨"FinQ", none, "財務活動によるキャッシュ・フロー", "Net cash from financing activities"⟩],
       [⟨"CFRoot", "InvQ", 1, 1⟩, ⟨"CFRoot", "FinQ", 1, 2⟩]⟩
      3 none (some "InvQ") (some "FinQ") false "role"
      [⟨"CurrentYearDuration", ⟨2023, 12, 31⟩, ⟨2023, 1, 1⟩, ⟨2023, 12, 31⟩⟩]
      = .error .attributeError :=
  ⟨rfl, rfl⟩

/-- Witness for `C8_cf_placeholder`: operating present, investing concept
unidentified, financing present but nil — both replaced by the placeholder
and the instance still produced. -/
theorem C8_cf_placeholder_witness :
    cf_extract_one
      ⟨[⟨"OpQ", "CurrentYearDuration", 10, "10", false, "JPY"⟩,
        ⟨"FinQ", "CurrentYearDuration", 0, "0", true, "JPY"⟩],
       [],
       [⟨"OpQ", none, "営業活動によるキャッシュ・フロー", "Net cash from operating activities"⟩,
        ⟨"FinQ", none, "財務活動によるキャッシュ・フロー", "Net cash from financing activities"⟩],
       []⟩
      3 (some "OpQ") none (some "FinQ") false "role"
      ⟨"CurrentYearDuration", ⟨2023, 12, 31⟩, ⟨2023, 1, 1⟩, ⟨2023, 12, 31⟩⟩
      = .ok { operating := ⟨"営業活動によるキャッシュ・フロー", 10, "OpQ", none, none, none, []⟩,
              investing := placeholder_accounting_item,
              financing := placeholder_accounting_item,
              consolidated := false,
              durationFrom := ⟨2023, 1, 1⟩, durationTo := ⟨2023, 12, 31⟩,
              unit := "JPY", roleType := "role" } :=
  (C8_cf_placeholder
    ⟨[⟨"OpQ", "CurrentYearDuration", 10, "10", false, "JPY"⟩,
      ⟨"FinQ", "CurrentYearDuration", 0, "0", true, "JPY"⟩],
     [],
     [⟨"OpQ", none, "営業活動によるキャッシュ・フロー", "Net cash from operating activities"⟩,
      ⟨"FinQ", none, "財務活動によるキャッシュ・フロー", "Net cash from financing activities"⟩],
     []⟩
    3 "OpQ" none (some "FinQ") false "role"
    ⟨"CurrentYearDuration", ⟨2023, 12, 31⟩, ⟨2023, 1, 1⟩, ⟨2023, 12, 31⟩⟩
    (some ⟨"営業活動によるキャッシュ・フロー", 10, "OpQ", none, none, none, []⟩) none none
    ⟨"OpQ", "CurrentYearDuration", 10, "10", false, "JPY"⟩
    rfl rfl rfl rfl).1

/-! ## C1: deduplication of overlapping periods -/

theorem DateTime.leb_refl (a : DateTime) : a.leb a = true := by
  simp [DateTime.leb]

theorem DateTime.leb_of_ltb {a b : DateTime} (h : a.ltb b = true) :
    a.leb b = true := by
  simp [DateTime.leb, h]

theorem DateTime.leb_total_of_not_ltb {a b : DateTime}
    (h : a.ltb b = false) : b.leb a = true := by
  have h' : ¬ (a.ltb b = true) := by simp [h]
  obtain ⟨x1, x2, x3⟩ := a
  obtain ⟨y1, y2, y3⟩ := b
  simp only [DateTime.ltb, DateTime.leb, Bool.or_eq_true, Bool.and_eq_true,
    decide_eq_true_eq, beq_iff_eq, DateTime.mk.injEq] at h' ⊢
  omega

theorem DateTime.leb_trans {a b c : DateTime} (h1 : a.leb b = true)
    (h2 : b.leb c = true) : a.leb c = true := by
  obtain ⟨x1, x2, x3⟩ := a
  obtain ⟨y1, y2, y3⟩ := b
  obtain ⟨z1, z2, z3⟩ := c
  simp only [DateTime.ltb, DateTime.leb, Bool.or_eq_true, Bool.and_eq_true,
    decide_eq_true_eq, beq_iff_eq, DateTime.mk.injEq] at h1 h2 ⊢
  omega

theorem dictLookup_none_iff {α : Type} (d : List (String × α)) (k : String) :
    dictLookup d k = none ↔ ∀ kv ∈ d, ¬ (kv.1 = k) := by
  induction d with
  | nil => simp [dictLookup]
  | cons kv rest ih =>
    rw [dictLookup]
    by_cases h : (kv.1 == k) = true
    · rw [if_pos h]
      simp only [beq_iff_eq] at h
      constructor
      · intro hsome
        cases hsome
      · intro hall
        exact absurd h (hall kv (List.mem_cons_self _ _))
    · rw [if_neg h]
      rw [ih]
      simp only [beq_iff_eq] at h
      constructor
      · intro hall kv' hkv'
        rcases List.mem_cons.mp hkv' with rfl | hkv'
        · exact h
        · exact hall kv' hkv'
      · intro hall kv' hkv'
        exact hall kv' (List.mem_cons_of_mem _ hkv')

theorem dictLookup_some_mem {α : Type} {d : List (String × α)} {k : String}
    {y : α} (h : dictLookup d k = some y) : (k, y) ∈ d := by
  induction d with
  | nil => cases h
  | cons kv rest ih =>
    obtain ⟨k1, v1⟩ := kv
    rw [dictLookup] at h
    by_cases hk : (k1 == k) = true
    · rw [if_pos hk] at h
      cases h
      simp only [beq_iff_eq] at hk
      cases hk
      exact List.mem_cons_self _ _
    · rw [if_neg hk] at h
      exact List.mem_cons_of_mem _ (ih h)

theorem dictSet_of_none {α : Type} {d : List (String × α)} {k : String}
    (h : dictLookup d k = none) (v : α) : dictSet d k v = d ++ [(k, v)] := by
  unfold dictSet
  rw [if_neg]
  intro hany
  rw [List.any_eq_true] at hany
  obtain ⟨kv, hmem, hkv⟩ := hany
  rw [dictLookup_none_iff] at h
  exact h kv hmem (by simpa using hkv)

theorem dictSet_of_some {α : Type} {d : List (String × α)} {k : String}
    {y : α} (h : dictLookup d k = some y) (v : α) :
    dictSet d k v = d.map (fun kv => if kv.1 == k then (k, v) else kv) := by
  unfold dictSet
  rw [if_pos]
  rw [List.any_eq_true]
  exact ⟨(k, y), dictLookup_some_mem h, by simp⟩

theorem dictLookup_of_mem_pairwise {α : Type} {d : List (String × α)}
    {k : String} {y : α} :
    List.Pairwise (fun kv kv' : String × α => kv.1 ≠ kv'.1) d →
    (k, y) ∈ d → dictLookup d k = some y := by
  induction d with
  | nil =>
    intro _ hm
    cases hm
  | cons kv rest ih =>
    intro hp hm
    rw [dictLookup]
    rcases List.mem_cons.mp hm with heq | hm'
    · rw [← heq]
      rw [if_pos (by simp)]
    · have hpc := List.pairwise_cons.mp hp
      have hne : ¬ (kv.1 == k) = true := by
        have := hpc.1 (k, y) hm'
        simpa using this
      rw [if_neg hne]
      exact ih hpc.2 hm'

theorem dedup_step_invariant {α : Type} (key : α → String)
    (subDate : α → DateTime) {processed : List α} {d : List (String × α)}
    (x : α) (h : dedup_invariant key subDate processed d) :
    dedup_invariant key subDate (processed ++ [x])
      (dedup_step key subDate d x) := by
  obtain ⟨h1, h2, h3⟩ := h
  unfold dedup_step
  cases hl : dictLookup d (key x) with
  | none =>
    dsimp only
    rw [dictSet_of_none hl]
    refine ⟨?_, ?_, ?_⟩
    · intro kv hkv
      rcases List.mem_append.mp hkv with hkv | hkv
      · exact ⟨(h1 kv hkv).1, List.mem_append_left _ (h1 kv hkv).2⟩
      · rw [List.mem_singleton.mp hkv]
        exact ⟨rfl, List.mem_append_right _ (List.mem_singleton_self x)⟩
    · rw [List.pairwise_append]
      refine ⟨h2, List.pairwise_singleton _ _, ?_⟩
      intro kv hkv kv' hkv'
      rw [List.mem_singleton.mp hkv']
      rw [dictLookup_none_iff] at hl
      exact hl kv hkv
    · intro z hz
      rcases List.mem_append.mp hz with hz | hz
      · obtain ⟨kv, hkv, hk, hle⟩ := h3 z hz
        exact ⟨kv, List.mem_append_left _ hkv, hk, hle⟩
      · rw [List.mem_singleton.mp hz]
        exact ⟨(key x, x), List.mem_append_right _ (List.mem_singleton_self _),
          rfl, DateTime.leb_refl _⟩
  | some old =>
    have hfst : ∀ kv0 : String × α,
        ((if kv0.1 == key x then (key x, x) else kv0) : String × α).1 = kv0.1 := by
      intro kv0
      by_cases hk : (kv0.1 == key x) = true
      · rw [if_pos hk]
        exact (beq_iff_eq.mp hk).symm
      · rw [if_neg hk]
    dsimp only
    by_cases hlt : (subDate x).ltb (subDate old) = true
    · rw [if_pos hlt, dictSet_of_some hl]
      refine ⟨?_, ?_, ?_⟩
      · intro kv hkv
        rw [List.mem_map] at hkv
        obtain ⟨kv0, hkv0, hrepl⟩ := hkv
        by_cases hk : (kv0.1 == key x) = true
        · rw [if_pos hk] at hrepl
          rw [← hrepl]
          exact ⟨rfl, List.mem_append_right _ (List.mem_singleton_self x)⟩
        · rw [if_neg hk] at hrepl
          rw [← hrepl]
          exact ⟨(h1 kv0 hkv0).1, List.mem_append_left _ (h1 kv0 hkv0).2⟩
      · exact h2.map _ (fun a b hne => by rw [hfst a, hfst b]; exact hne)
      · have hold_mem : (key x, old) ∈ d := dictLookup_some_mem hl
        intro z hz
        rcases List.mem_append.mp hz with hz | hz
        · obtain ⟨kv, hkv, hk, hle⟩ := h3 z hz
          by_cases hkx : (kv.1 == key x) = true
          · -- the entry of z's key is replaced by x
            have hkeq : kv.1 = key x := beq_iff_eq.mp hkx
            -- old is exactly kv.2
            have : dictLookup d (key x) = some kv.2 := by
              have hkv' : (key x, kv.2) ∈ d := by
                obtain ⟨ka, va⟩ := kv
                cases hkeq
                exact hkv
              exact dictLookup_of_mem_pairwise h2 hkv'
            have hov : old = kv.2 := by
              rw [hl] at this
              exact Option.some.inj this
            refine ⟨(key x, x), ?_, ?_, ?_⟩
            · rw [List.mem_map]
              exact ⟨kv, hkv, by rw [if_pos hkx]⟩
            · rw [← hkeq, hk]
            · exact DateTime.leb_trans (DateTime.leb_of_ltb hlt)
                (hov ▸ hle)
          · refine ⟨kv, ?_, hk, hle⟩
            rw [List.mem_map]
            exact ⟨kv, hkv, by rw [if_neg hkx]⟩
        · rw [List.mem_singleton.mp hz]
          refine ⟨(key x, x), ?_, rfl, DateTime.leb_refl _⟩
          rw [List.mem_map]
          exact ⟨(key x, old), hold_mem, by rw [if_pos (by simp)]⟩
    · have hlt' : (subDate x).ltb (subDate old) = false := by
        simpa using hlt
      rw [if_neg hlt]
      refine ⟨?_, h2, ?_⟩
      · intro kv hkv
        exact ⟨(h1 kv hkv).1, List.mem_append_left _ (h1 kv hkv).2⟩
      · intro z hz
        rcases List.mem_append.mp hz with hz | hz
        · obtain ⟨kv, hkv, hk, hle⟩ := h3 z hz
          exact ⟨kv, hkv, hk, hle⟩
        · rw [List.mem_singleton.mp hz]
          exact ⟨(key x, old), dictLookup_some_mem hl, rfl,
            DateTime.leb_total_of_not_ltb hlt'⟩

theorem dedup_fold_invariant {α : Type} (key : α → String)
    (subDate : α → DateTime) (xs : List α) :
    ∀ (processed : List α) (d : List (String × α)),
      dedup_invariant key subDate processed d →
      dedup_invariant key subDate (processed ++ xs)
        (xs.foldl (dedup_step key subDate) d) := by
  induction xs with
  | nil =>
    intro p d h
    simpa using h
  | cons x rest ih =>
    intro p d h
    rw [List.foldl_cons]
    have := ih (p ++ [x]) _ (dedup_step_invariant key subDate x h)
    simpa [List.append_assoc] using this

theorem insertSorted_perm {α : Type} (le : α → α → Bool) (x : α)
    (l : List α) : (insertSorted le x l).Perm (x :: l) := by
  induction l with
  | nil => exact List.Perm.refl _
  | cons y ys ih =>
    rw [insertSorted]
    by_cases h : le x y = true
    · rw [if_pos h]
    · rw [if_neg h]
      exact (ih.cons y).trans (List.Perm.swap x y ys)

theorem insertionSort_perm {α : Type} (le : α → α → Bool) (l : List α) :
    (insertionSort le l).Perm l := by
  induction l with
  | nil => exact List.Perm.refl _
  | cons x xs ih =>
    rw [insertionSort]
    exact (insertSorted_perm le x _).trans (ih.cons x)

/-- Common specification of the three v2 dedup helpers: the output has at
most one element per key, every output element is an input element, and
every input element is dominated by an output element of its key whose
submission date is at most its own. -/
theorem dedup_spec {α : Type} (key : α → String) (subDate : α → DateTime)
    (sortLe : α → α → Bool) (xs : List α) :
    (List.Pairwise (fun a b => key a ≠ key b)
      (dedup_with_selecting_original_doc key subDate sortLe xs)) ∧
    (∀ q ∈ dedup_with_selecting_original_doc key subDate sortLe xs, q ∈ xs) ∧
    (∀ x ∈ xs, ∃ q ∈ dedup_with_selecting_original_doc key subDate sortLe xs,
      key q = key x ∧ (subDate q).leb (subDate x) = true) := by
  have hinv := dedup_fold_invariant key subDate xs [] []
    ⟨by simp, List.Pairwise.nil, by simp⟩
  rw [List.nil_append] at hinv
  obtain ⟨h1, h2, h3⟩ := hinv
  unfold dedup_with_selecting_original_doc
  have hperm := insertionSort_perm sortLe
    ((xs.foldl (dedup_step key subDate) []).map (fun kv => kv.2))
  refine ⟨?_, ?_, ?_⟩
  · have hmap : List.Pairwise (fun a b => key a ≠ key b)
        ((xs.foldl (dedup_step key subDate) []).map (fun kv => kv.2)) := by
      rw [List.pairwise_map]
      refine h2.imp_of_mem ?_
      intro kv kv' hkv hkv' hne
      rw [(h1 kv hkv).1, (h1 kv' hkv').1] at hne
      exact hne
    exact (hperm.pairwise_iff (fun h heq => h heq.symm)).mpr hmap
  · intro q hq
    have hq' := hperm.mem_iff.mp hq
    rw [List.mem_map] at hq'
    obtain ⟨kv, hkv, hq2⟩ := hq'
    rw [← hq2]
    exact (h1 kv hkv).2
  · intro x hx
    obtain ⟨kv, hkv, hk, hle⟩ := h3 x hx
    refine ⟨kv.2, ?_, ?_, hle⟩
    · rw [hperm.mem_iff, List.mem_map]
      exact ⟨kv, hkv, rfl⟩
    · rw [← (h1 kv hkv).1]
      exact hk

/-- C1 (amended): in the v2 aggregator, each dedup helper keeps at most one
instance per key — the (durationFrom, durationTo) pair for PL and CF, the
instant date for BS — every kept instance is one of the inputs, and every
input instance is represented by a kept instance of its key whose filing
`docSubmissionDate` is at most its own (so the kept one is the
earliest-submitted, the earlier-inserted on ties); in the spec's two-filing
scenario (filing A submitted 2023-01-01, filing B submitted 2023-06-01,
both reporting period 2022-01-01..2022-12-31) the aggregated annual series
contains exactly one entry for that period, sourced from filing A. -/
theorem C1_dedup_selecting_original :
    (∀ pls : List PLInstanceV2,
      List.Pairwise (fun a b => pl_key a ≠ pl_key b)
        (deduplicate_pl_with_selecting_original_doc pls) ∧
      (∀ q ∈ deduplicate_pl_with_selecting_original_doc pls, q ∈ pls) ∧
      (∀ pl ∈ pls, ∃ q ∈ deduplicate_pl_with_selecting_original_doc pls,
        pl_key q = pl_key pl ∧
        q.docSubmissionDate.leb pl.docSubmissionDate = true)) ∧
    (∀ bss : List BSInstanceV2,
      List.Pairwise (fun a b => bs_key a ≠ bs_key b)
        (deduplicate_bs_with_selecting_original_doc bss) ∧
      (∀ q ∈ deduplicate_bs_with_selecting_original_doc bss, q ∈ bss) ∧
      (∀ bs ∈ bss, ∃ q ∈ deduplicate_bs_with_selecting_original_doc bss,
        bs_key q = bs_key bs ∧
        q.docSubmissionDate.leb bs.docSubmissionDate = true)) ∧
    (∀ fcs : List CFInstanceV2,
      List.Pairwise (fun a b => cf_key a ≠ cf_key b)
        (deduplicate_cf_with_selecting_original_doc fcs) ∧
      (∀ q ∈ deduplicate_cf_with_selecting_original_doc fcs, q ∈ fcs) ∧
      (∀ cf ∈ fcs, ∃ q ∈ deduplicate_cf_with_selecting_original_doc fcs,
        cf_key q = cf_key cf ∧
        q.docSubmissionDate.leb cf.docSubmissionDate = true)) ∧
    deduplicate_pl_with_selecting_original_doc
      [⟨⟨2022, 1, 1⟩, ⟨2022, 12, 31⟩, true, ⟨2023, 1, 1⟩, "docA"⟩,
       ⟨⟨2022, 1, 1⟩, ⟨2022, 12, 31⟩, true, ⟨2023, 6, 1⟩, "docB"⟩]
      = [⟨⟨2022, 1, 1⟩, ⟨2022, 12, 31⟩, true, ⟨2023, 1, 1⟩, "docA"⟩] :=
  ⟨fun pls => dedup_spec pl_key PLInstanceV2.docSubmissionDate
      (fun a b => a.durationFrom.leb b.durationFrom) pls,
   fun bss => dedup_spec bs_key BSInstanceV2.docSubmissionDate
      (fun a b => a.period.leb b.period) bss,
   fun fcs => dedup_spec cf_key CFInstanceV2.docSubmissionDate
      (fun a b => a.durationFrom.leb b.durationFrom) fcs,
   by decide⟩

/-- Counterexample for C1 as stated.  First conjunct: the v1 dedup
(membership tested with the period key, entries stored under `docId`) keeps
**both** instances of the same annual period reported by two filings, so
"at most one instance per key" and "exactly one entry for that period"
fail on the v1 aggregator.  Second conjunct: the v2 dedup tie-break
compares `docSubmissionDate`, not the fiscal-year start: with filing
`docA` (fiscal-year start 2022-01-01, submitted 2023-06-01) and filing
`docB` (fiscal-year start 2023-01-01, submitted 2023-03-01) reporting the
same period, the kept instance is `docB`'s — the one from the filing with
the **later** fiscal-year start. -/
theorem C1_dedup_counterexample :
    deduplicate_pl_with_selecting_original_doc_v1
      [⟨"docA", ⟨2022, 1, 1⟩⟩, ⟨"docB", ⟨2023, 1, 1⟩⟩]
      [⟨"docA", ⟨2022, 1, 1⟩, ⟨2022, 12, 31⟩⟩,
       ⟨"docB", ⟨2022, 1, 1⟩, ⟨2022, 12, 31⟩⟩]
      = .ok [⟨"docA", ⟨2022, 1, 1⟩, ⟨2022, 12, 31⟩⟩,
             ⟨"docB", ⟨2022, 1, 1⟩, ⟨2022, 12, 31⟩⟩] ∧
    deduplicate_pl_with_selecting_original_doc
      [⟨⟨2022, 1, 1⟩, ⟨2022, 12, 31⟩, true, ⟨2023, 6, 1⟩, "docA"⟩,
       ⟨⟨2022, 1, 1⟩, ⟨2022, 12, 31⟩, true, ⟨2023, 3, 1⟩, "docB"⟩]
      = [⟨⟨2022, 1, 1⟩, ⟨2022, 12, 31⟩, true, ⟨2023, 3, 1⟩, "docB"⟩] := by
  constructor
  · rfl
  · decide

/-- Witness for `C1_dedup_selecting_original`: the domination conclusion
applied to filing B's instance of the scenario input. -/
theorem C1_dedup_selecting_original_witness :
    ∃ q ∈ deduplicate_pl_with_selecting_original_doc
      [⟨⟨2022, 1, 1⟩, ⟨2022, 12, 31⟩, true, ⟨2023, 1, 1⟩, "docA"⟩,
       ⟨⟨2022, 1, 1⟩, ⟨2022, 12, 31⟩, true, ⟨2023, 6, 1⟩, "docB"⟩],
      pl_key q = pl_key ⟨⟨2022, 1, 1⟩, ⟨2022, 12, 31⟩, true, ⟨2023, 6, 1⟩, "docB"⟩ ∧
      q.docSubmissionDate.leb (⟨2023, 6, 1⟩ : DateTime) = true :=
  (C1_dedup_selecting_original.1
    [⟨⟨2022, 1, 1⟩, ⟨2022, 12, 31⟩, true, ⟨2023, 1, 1⟩, "docA"⟩,
     ⟨⟨2022, 1, 1⟩, ⟨2022, 12, 31⟩, true, ⟨2023, 6, 1⟩, "docB"⟩]).2.2
    ⟨⟨2022, 1, 1⟩, ⟨2022, 12, 31⟩, true, ⟨2023, 6, 1⟩, "docB"⟩
    (by decide)

/-! ## C9: the summary pruning mutates the shared per-filing instances -/

/-- C9 (amended): producing the per-company summary leaves the aggregated
series (separately parsed objects) and the company identity untouched; but
the pruning operates on the selected per-filing instances **in place** (no
copy): after the summary, the selected latest annual document holds the
pruned PL, BS and CF instances — the summary's `latestPL`, `latestBS` and
`latestCF` and the document's entries are the same pruned trees, whose
grandchildren have been removed. -/
theorem C9_summary_prune (c : SummaryCompany) :
    ((summarize_company c).2.aggregatedFinancialStatements =
        c.aggregatedFinancialStatements ∧
      (summarize_company c).1.companyName = c.name) ∧
    (∀ (di : Nat) (doc : SummaryDoc),
      select_latest_annual c.financialStatementDocuments = some (di, doc) →
      ∃ doc1, (summarize_company c).2.financialStatementDocuments =
          c.financialStatementDocuments.set di doc1 ∧
        (∀ (pi : Nat) (pl : PLInstance),
          select_latest_pl doc.pl = some (pi, pl) →
          (summarize_company c).1.latestPL = some (prune_pl pl) ∧
          doc1.pl = doc.pl.set pi (prune_pl pl)) ∧
        (∀ (bi : Nat) (bs : BSInstance),
          select_latest_bs doc.bs = some (bi, bs) →
          (summarize_company c).1.latestBS = some (prune_bs bs) ∧
          doc1.bs = doc.bs.set bi (prune_bs bs)) ∧
        (∀ (ci : Nat) (cf : CFInstance),
          select_latest_cf doc.cf = some (ci, cf) →
          (summarize_company c).1.latestCF = some (prune_cf cf) ∧
          doc1.cf = doc.cf.set ci (prune_cf cf))) := by
  constructor
  · unfold summarize_company
    cases h : select_latest_annual c.financialStatementDocuments with
    | none => exact ⟨rfl, rfl⟩
    | some di_doc =>
      obtain ⟨di, doc⟩ := di_doc
      exact ⟨rfl, rfl⟩
  · intro di doc hsel
    unfold summarize_company
    rw [hsel]
    dsimp only
    refine ⟨_, rfl, ?_, ?_, ?_⟩
    · intro pi pl hpl
      rw [hpl]
      dsimp only
      exact ⟨rfl, rfl⟩
    · intro bi bs hbs
      rw [hbs]
      dsimp only
      exact ⟨rfl, rfl⟩
    · intro ci cf hcf
      rw [hcf]
      dsimp only
      exact ⟨rfl, rfl⟩

/-- Counterexample for C9 as stated: a company with one annual document
whose single PL, BS and CF instances each hold trees of depth three (a
`top` with one child `mid` with one grandchild `leaf`).  After the summary
is produced, the per-filing document holds the pruned trees — the PL
expense tree, all three BS trees and all three CF section trees have lost
their grandchild `leaf` — so the AccountingItem trees held by the
per-filing documents are **not** unchanged. -/
theorem C9_summary_prune_counterexample :
    (summarize_company
      ⟨"ACME", "E99999",
       [⟨"Annual", ⟨2023, 3, 1⟩,
         [⟨⟨"top", 3, "q", none, none, none, [⟨"mid", 2, "q", none, none,
             none, [⟨"leaf", 1, "q", none, none, none, []⟩]⟩]⟩,
           [],
           [⟨"top", 3, "q", none, none, none, [⟨"mid", 2, "q", none, none,
             none, [⟨"leaf", 1, "q", none, none, none, []⟩]⟩]⟩],
           ⟨"top", 3, "q", none, none, none, [⟨"mid", 2, "q", none, none,
             none, [⟨"leaf", 1, "q", none, none, none, []⟩]⟩]⟩,
           false, ⟨2022, 1, 1⟩, ⟨2022, 12, 31⟩, "JPY", "r"⟩],
         [⟨⟨"top", 3, "q", none, none, none, [⟨"mid", 2, "q", none, none,
             none, [⟨"leaf", 1, "q", none, none, none, []⟩]⟩]⟩,
           ⟨"top", 3, "q", none, none, none, [⟨"mid", 2, "q", none, none,
             none, [⟨"leaf", 1, "q", none, none, none, []⟩]⟩]⟩,
           ⟨"top", 3, "q", none, none, none, [⟨"mid", 2, "q", none, none,
             none, [⟨"leaf", 1, "q", none, none, none, []⟩]⟩]⟩,
           false, ⟨2022, 12, 31⟩, "JPY", "r"⟩],
         [⟨⟨"top", 3, "q", none, none, none, [⟨"mid", 2, "q", none, none,
             none, [⟨"leaf", 1, "q", none, none, none, []⟩]⟩]⟩,
           ⟨"top", 3, "q", none, none, none, [⟨"mid", 2, "q", none, none,
             none, [⟨"leaf", 1, "q", none, none, none, []⟩]⟩]⟩,
           ⟨"top", 3, "q", none, none, none, [⟨"mid", 2, "q", none, none,
             none, [⟨"leaf", 1, "q", none, none, none, []⟩]⟩]⟩,
           false, ⟨2022, 1, 1⟩, ⟨2022, 12, 31⟩, "JPY", "r"⟩]⟩],
       ⟨[], [], [], [], [], [], [], [], [], [], [], [], [], []⟩⟩
      ).2.financialStatementDocuments =
      [⟨"Annual", ⟨2023, 3, 1⟩,
        [⟨⟨"top", 3, "q", none, none, none, [⟨"mid", 2, "q", none, none,
            none, [⟨"leaf", 1, "q", none, none, none, []⟩]⟩]⟩,
          [],
          [⟨"top", 3, "q", none, none, none,
            [⟨"mid", 2, "q", none, none, none, []⟩]⟩],
          ⟨"top", 3, "q", none, none, none, [⟨"mid", 2, "q", none, none,
            none, [⟨"leaf", 1, "q", none, none, none, []⟩]⟩]⟩,
          false, ⟨2022, 1, 1⟩, ⟨2022, 12, 31⟩, "JPY", "r"⟩],
        [⟨⟨"top", 3, "q", none, none, none,
            [⟨"mid", 2, "q", none, none, none, []⟩]⟩,
          ⟨"top", 3, "q", none, none, none,
            [⟨"mid", 2, "q", none, none, none, []⟩]⟩,
          ⟨"top", 3, "q", none, none, none,
            [⟨"mid", 2, "q", none, none, none, []⟩]⟩,
          false, ⟨2022, 12, 31⟩, "JPY", "r"⟩],
        [⟨⟨"top", 3, "q", none, none, none,
            [⟨"mid", 2, "q", none, none, none, []⟩]⟩,
          ⟨"top", 3, "q", none, none, none,
            [⟨"mid", 2, "q", none, none, none, []⟩]⟩,
          ⟨"top", 3, "q", none, none, none,
            [⟨"mid", 2, "q", none, none, none, []⟩]⟩,
          false, ⟨2022, 1, 1⟩, ⟨2022, 12, 31⟩, "JPY", "r"⟩]⟩] ∧
    (summarize_company
      ⟨"ACME", "E99999",
       [⟨"Annual", ⟨2023, 3, 1⟩,
         [⟨⟨"top", 3, "q", none, none, none, [⟨"mid", 2, "q", none, none,
             none, [⟨"leaf", 1, "q", none, none, none, []⟩]⟩]⟩,
           [],
           [⟨"top", 3, "q", none, none, none, [⟨"mid", 2, "q", none, none,
             none, [⟨"leaf", 1, "q", none, none, none, []⟩]⟩]⟩],
           ⟨"top", 3, "q", none, none, none, [⟨"mid", 2, "q", none, none,
             none, [⟨"leaf", 1, "q", none, none, none, []⟩]⟩]⟩,
           false, ⟨2022, 1, 1⟩, ⟨2022, 12, 31⟩, "JPY", "r"⟩],
         [⟨⟨"top", 3, "q", none, none, none, [⟨"mid", 2, "q", none, none,
             none, [⟨"leaf", 1, "q", none, none, none, []⟩]⟩]⟩,
           ⟨"top", 3, "q", none, none, none, [⟨"mid", 2, "q", none, none,
             none, [⟨"leaf", 1, "q", none, none, none, []⟩]⟩]⟩,
           ⟨"top", 3, "q", none, none, none, [⟨"mid", 2, "q", none, none,
             none, [⟨"leaf", 1, "q", none, none, none, []⟩]⟩]⟩,
           false, ⟨2022, 12, 31⟩, "JPY", "r"⟩],
         [⟨⟨"top", 3, "q", none, none, none, [⟨"mid", 2, "q", none, none,
             none, [⟨"leaf", 1, "q", none, none, none, []⟩]⟩]⟩,
           ⟨"top", 3, "q", none, none, none, [⟨"mid", 2, "q", none, none,
             none, [⟨"leaf", 1, "q", none, none, none, []⟩]⟩]⟩,
           ⟨"top", 3, "q", none, none, none, [⟨"mid", 2, "q", none, none,
             none, [⟨"leaf", 1, "q", none, none, none, []⟩]⟩]⟩,
           false, ⟨2022, 1, 1⟩, ⟨2022, 12, 31⟩, "JPY", "r"⟩]⟩],
       ⟨[], [], [], [], [], [], [], [], [], [], [], [], [], []⟩⟩
      ).2.financialStatementDocuments ≠
    [⟨"Annual", ⟨2023, 3, 1⟩,
      [⟨⟨"top", 3, "q", none, none, none, [⟨"mid", 2, "q", none, none,
          none, [⟨"leaf", 1, "q", none, none, none, []⟩]⟩]⟩,
        [],
        [⟨"top", 3, "q", none, none, none, [⟨"mid", 2, "q", none, none,
          none, [⟨"leaf", 1, "q", none, none, none, []⟩]⟩]⟩],
        ⟨"top", 3, "q", none, none, none, [⟨"mid", 2, "q", none, none,
          none, [⟨"leaf", 1, "q", none, none, none, []⟩]⟩]⟩,
        false, ⟨2022, 1, 1⟩, ⟨2022, 12, 31⟩, "JPY", "r"⟩],
      [⟨⟨"top", 3, "q", none, none, none, [⟨"mid", 2, "q", none, none,
          none, [⟨"leaf", 1, "q", none, none, none, []⟩]⟩]⟩,
        ⟨"top", 3, "q", none, none, none, [⟨"mid", 2, "q", none, none,
          none, [⟨"leaf", 1, "q", none, none, none, []⟩]⟩]⟩,
        ⟨"top", 3, "q", none, none, none, [⟨"mid", 2, "q", none, none,
          none, [⟨"leaf", 1, "q", none, none, none, []⟩]⟩]⟩,
        false, ⟨2022, 12, 31⟩, "JPY", "r"⟩],
      [⟨⟨"top", 3, "q", none, none, none, [⟨"mid", 2, "q", none, none,
          none, [⟨"leaf", 1, "q", none, none, none, []⟩]⟩]⟩,
        ⟨"top", 3, "q", none, none, none, [⟨"mid", 2, "q", none, none,
          none, [⟨"leaf", 1, "q", none, none, none, []⟩]⟩]⟩,
        ⟨"top", 3, "q", none, none, none, [⟨"mid", 2, "q", none, none,
          none, [⟨"leaf", 1, "q", none, none, none, []⟩]⟩]⟩,
        false, ⟨2022, 1, 1⟩, ⟨2022, 12, 31⟩, "JPY", "r"⟩]⟩] := by
  constructor
  · rfl
  · intro h
    exact absurd (congrArg (fun docs : List SummaryDoc => docs.map (fun d =>
      (d.pl.map (fun p => p.expenses.map (fun e =>
         e.items.map (fun x => x.items.length))),
       d.bs.map (fun b => b.assets.items.map (fun x => x.items.length)),
       d.cf.map (fun g =>
         g.operating.items.map (fun x => x.items.length))))) h) (by decide)

/-- Witness for `C9_summary_prune`: the summary of the counterexample
company carries the pruned instances (grandchildren removed) as its latest
PL, latest BS and latest CF. -/
theorem C9_summary_prune_witness :
    (summarize_company
      ⟨"ACME", "E99999",
       [⟨"Annual", ⟨2023, 3, 1⟩,
         [⟨⟨"top", 3, "q", none, none, none, [⟨"mid", 2, "q", none, none,
             none, [⟨"leaf", 1, "q", none, none, none, []⟩]⟩]⟩,
           [],
           [⟨"top", 3, "q", none, none, none, [⟨"mid", 2, "q", none, none,
             none, [⟨"leaf", 1, "q", none, none, none, []⟩]⟩]⟩],
           ⟨"top", 3, "q", none, none, none, [⟨"mid", 2, "q", none, none,
             none, [⟨"leaf", 1, "q", none, none, none, []⟩]⟩]⟩,
           false, ⟨2022, 1, 1⟩, ⟨2022, 12, 31⟩, "JPY", "r"⟩],
         [⟨⟨"top", 3, "q", none, none, none, [⟨"mid", 2, "q", none, none,
             none, [⟨"leaf", 1, "q", none, none, none, []⟩]⟩]⟩,
           ⟨"top", 3, "q", none, none, none, [⟨"mid", 2, "q", none, none,
             none, [⟨"leaf", 1, "q", none, none, none, []⟩]⟩]⟩,
           ⟨"top", 3, "q", none, none, none, [⟨"mid", 2, "q", none, none,
             none, [⟨"leaf", 1, "q", none, none, none, []⟩]⟩]⟩,
           false, ⟨2022, 12, 31⟩, "JPY", "r"⟩],
         [⟨⟨"top", 3, "q", none, none, none, [⟨"mid", 2, "q", none, none,
             none, [⟨"leaf", 1, "q", none, none, none, []⟩]⟩]⟩,
           ⟨"top", 3, "q", none, none, none, [⟨"mid", 2, "q", none, none,
             none, [⟨"leaf", 1, "q", none, none, none, []⟩]⟩]⟩,
           ⟨"top", 3, "q", none, none, none, [⟨"mid", 2, "q", none, none,
             none, [⟨"leaf", 1, "q", none, none, none, []⟩]⟩]⟩,
           false, ⟨2022, 1, 1⟩, ⟨2022, 12, 31⟩, "JPY", "r"⟩]⟩],
       ⟨[], [], [], [], [], [], [], [], [], [], [], [], [], []⟩⟩
      ).1.latestPL = some (prune_pl
        ⟨⟨"top", 3, "q", none, none, none, [⟨"mid", 2, "q", none, none,
           none, [⟨"leaf", 1, "q", none, none, none, []⟩]⟩]⟩,
         [],
         [⟨"top", 3, "q", none, none, none, [⟨"mid", 2, "q", none, none,
           none, [⟨"leaf", 1, "q", none, none, none, []⟩]⟩]⟩],
         ⟨"top", 3, "q", none, none, none, [⟨"mid", 2, "q", none, none,
           none, [⟨"leaf", 1, "q", none, none, none, []⟩]⟩]⟩,
         false, ⟨2022, 1, 1⟩, ⟨2022, 12, 31⟩, "JPY", "r"⟩) ∧
    (summarize_company
      ⟨"ACME", "E99999",
       [⟨"Annual", ⟨2023, 3, 1⟩,
         [⟨⟨"top", 3, "q", none, none, none, [⟨"mid", 2, "q", none, none,
             none, [⟨"leaf", 1, "q", none, none, none, []⟩]⟩]⟩,
           [],
           [⟨"top", 3, "q", none, none, none, [⟨"mid", 2, "q", none, none,
             none, [⟨"leaf", 1, "q", none, none, none, []⟩]⟩]⟩],
           ⟨"top", 3, "q", none, none, none, [⟨"mid", 2, "q", none, none,
             none, [⟨"leaf", 1, "q", none, none, none, []⟩]⟩]⟩,
           false, ⟨2022, 1, 1⟩, ⟨2022, 12, 31⟩, "JPY", "r"⟩],
         [⟨⟨"top", 3, "q", none, none, none, [⟨"mid", 2, "q", none, none,
             none, [⟨"leaf", 1, "q", none, none, none, []⟩]⟩]⟩,
           ⟨"top", 3, "q", none, none, none, [⟨"mid", 2, "q", none, none,
             none, [⟨"leaf", 1, "q", none, none, none, []⟩]⟩]⟩,
           ⟨"top", 3, "q", none, none, none, [⟨"mid", 2, "q", none, none,
             none, [⟨"leaf", 1, "q", none, none, none, []⟩]⟩]⟩,
           false, ⟨2022, 12, 31⟩, "JPY", "r"⟩],
         [⟨⟨"top", 3, "q", none, none, none, [⟨"mid", 2, "q", none, none,
             none, [⟨"leaf", 1, "q", none, none, none, []⟩]⟩]⟩,
           ⟨"top", 3, "q", none, none, none, [⟨"mid", 2, "q", none, none,
             none, [⟨"leaf", 1, "q", none, none, none, []⟩]⟩]⟩,
           ⟨"top", 3, "q", none, none, none, [⟨"mid", 2, "q", none, none,
             none, [⟨"leaf", 1, "q", none, none, none, []⟩]⟩]⟩,
           false, ⟨2022, 1, 1⟩, ⟨2022, 12, 31⟩, "JPY", "r"⟩]⟩],
       ⟨[], [], [], [], [], [], [], [], [], [], [], [], [], []⟩⟩
      ).1.latestBS = some (prune_bs
        ⟨⟨"top", 3, "q", none, none, none, [⟨"mid", 2, "q", none, none,
           none, [⟨"leaf", 1, "q", none, none, none, []⟩]⟩]⟩,
         ⟨"top", 3, "q", none, none, none, [⟨"mid", 2, "q", none, none,
           none, [⟨"leaf", 1, "q", none, none, none, []⟩]⟩]⟩,
         ⟨"top", 3, "q", none, none, none, [⟨"mid", 2, "q", none, none,
           none, [⟨"leaf", 1, "q", none, none, none, []⟩]⟩]⟩,
         false, ⟨2022, 12, 31⟩, "JPY", "r"⟩) ∧
    (summarize_company
      ⟨"ACME", "E99999",
       [⟨"Annual", ⟨2023, 3, 1⟩,
         [⟨⟨"top", 3, "q", none, none, none, [⟨"mid", 2, "q", none, none,
             none, [⟨"leaf", 1, "q", none, none, none, []⟩]⟩]⟩,
           [],
           [⟨"top", 3, "q", none, none, none, [⟨"mid", 2, "q", none, none,
             none, [⟨"leaf", 1, "q", none, none, none, []⟩]⟩]⟩],
           ⟨"top", 3, "q", none, none, none, [⟨"mid", 2, "q", none, none,
             none, [⟨"leaf", 1, "q", none, none, none, []⟩]⟩]⟩,
           false, ⟨2022, 1, 1⟩, ⟨2022, 12, 31⟩, "JPY", "r"⟩],
         [⟨⟨"top", 3, "q", none, none, none, [⟨"mid", 2, "q", none, none,
             none, [⟨"leaf", 1, "q", none, none, none, []⟩]⟩]⟩,
           ⟨"top", 3, "q", none, none, none, [⟨"mid", 2, "q", none, none,
             none, [⟨"leaf", 1, "q", none, none, none, []⟩]⟩]⟩,
           ⟨"top", 3, "q", none, none, none, [⟨"mid", 2, "q", none, none,
             none, [⟨"leaf", 1, "q", none, none, none, []⟩]⟩]⟩,
           false, ⟨2022, 12, 31⟩, "JPY", "r"⟩],
         [⟨⟨"top", 3, "q", none, none, none, [⟨"mid", 2, "q", none, none,
             none, [⟨"leaf", 1, "q", none, none, none, []⟩]⟩]⟩,
           ⟨"top", 3, "q", none, none, none, [⟨"mid", 2, "q", none, none,
             none, [⟨"leaf", 1, "q", none, none, none, []⟩]⟩]⟩,
           ⟨"top", 3, "q", none, none, none, [⟨"mid", 2, "q", none, none,
             none, [⟨"leaf", 1, "q", none, none, none, []⟩]⟩]⟩,
           false, ⟨2022, 1, 1⟩, ⟨2022, 12, 31⟩, "JPY", "r"⟩]⟩],
       ⟨[], [], [], [], [], [], [], [], [], [], [], [], [], []⟩⟩
      ).1.latestCF = some (prune_cf
        ⟨⟨"top", 3, "q", none, none, none, [⟨"mid", 2, "q", none, none,
           none, [⟨"leaf", 1, "q", none, none, none, []⟩]⟩]⟩,
         ⟨"top", 3, "q", none, none, none, [⟨"mid", 2, "q", none, none,
           none, [⟨"leaf", 1, "q", none, none, none, []⟩]⟩]⟩,
         ⟨"top", 3, "q", none, none, none, [⟨"mid", 2, "q", none, none,
           none, [⟨"leaf", 1, "q", none, none, none, []⟩]⟩]⟩,
         false, ⟨2022, 1, 1⟩, ⟨2022, 12, 31⟩, "JPY", "r"⟩) := by
  obtain ⟨doc1, hdocs, hpl, hbs, hcf⟩ :=
    (C9_summary_prune
      ⟨"ACME", "E99999",
       [⟨"Annual", ⟨2023, 3, 1⟩,
         [⟨⟨"top", 3, "q", none, none, none, [⟨"mid", 2, "q", none, none,
             none, [⟨"leaf", 1, "q", none, none, none, []⟩]⟩]⟩,
           [],
           [⟨"top", 3, "q", none, none, none, [⟨"mid", 2, "q", none, none,
             none, [⟨"leaf", 1, "q", none, none, none, []⟩]⟩]⟩],
           ⟨"top", 3, "q", none, none, none, [⟨"mid", 2, "q", none, none,
             none, [⟨"leaf", 1, "q", none, none, none, []⟩]⟩]⟩,
           false, ⟨2022, 1, 1⟩, ⟨2022, 12, 31⟩, "JPY", "r"⟩],
         [⟨⟨"top", 3, "q", none, none, none, [⟨"mid", 2, "q", none, none,
             none, [⟨"leaf", 1, "q", none, none, none, []⟩]⟩]⟩,
           ⟨"top", 3, "q", none, none, none, [⟨"mid", 2, "q", none, none,
             none, [⟨"leaf", 1, "q", none, none, none, []⟩]⟩]⟩,
           ⟨"top", 3, "q", none, none, none, [⟨"mid", 2, "q", none, none,
             none, [⟨"leaf", 1, "q", none, none, none, []⟩]⟩]⟩,
           false, ⟨2022, 12, 31⟩, "JPY", "r"⟩],
         [⟨⟨"top", 3, "q", none, none, none, [⟨"mid", 2, "q", none, none,
             none, [⟨"leaf", 1, "q", none, none, none, []⟩]⟩]⟩,
           ⟨"top", 3, "q", none, none, none, [⟨"mid", 2, "q", none, none,
             none, [⟨"leaf", 1, "q", none, none, none, []⟩]⟩]⟩,
           ⟨"top", 3, "q", none, none, none, [⟨"mid", 2, "q", none, none,
             none, [⟨"leaf", 1, "q", none, none, none, []⟩]⟩]⟩,
           false, ⟨2022, 1, 1⟩, ⟨2022, 12, 31⟩, "JPY", "r"⟩]⟩],
       ⟨[], [], [], [], [], [], [], [], [], [], [], [], [], []⟩⟩).2
    0
    ⟨"Annual", ⟨2023, 3, 1⟩,
      [⟨⟨"top", 3, "q", none, none, none, [⟨"mid", 2, "q", none, none,
          none, [⟨"leaf", 1, "q", none, none, none, []⟩]⟩]⟩,
        [],
        [⟨"top", 3, "q", none, none, none, [⟨"mid", 2, "q", none, none,
          none, [⟨"leaf", 1, "q", none, none, none, []⟩]⟩]⟩],
        ⟨"top", 3, "q", none, none, none, [⟨"mid", 2, "q", none, none,
          none, [⟨"leaf", 1, "q", none, none, none, []⟩]⟩]⟩,
        false, ⟨2022, 1, 1⟩, ⟨2022, 12, 31⟩, "JPY", "r"⟩],
      [⟨⟨"top", 3, "q", none, none, none, [⟨"mid", 2, "q", none, none,
          none, [⟨"leaf", 1, "q", none, none, none, []⟩]⟩]⟩,
        ⟨"top", 3, "q", none, none, none, [⟨"mid", 2, "q", none, none,
          none, [⟨"leaf", 1, "q", none, none, none, []⟩]⟩]⟩,
        ⟨"top", 3, "q", none, none, none, [⟨"mid", 2, "q", none, none,
          none, [⟨"leaf", 1, "q", none, none, none, []⟩]⟩]⟩,
        false, ⟨2022, 12, 31⟩, "JPY", "r"⟩],
      [⟨⟨"top", 3, "q", none, none, none, [⟨"mid", 2, "q", none, none,
          none, [⟨"leaf", 1, "q", none, none, none, []⟩]⟩]⟩,
        ⟨"top", 3, "q", none, none, none, [⟨"mid", 2, "q", none, none,
          none, [⟨"leaf", 1, "q", none, none, none, []⟩]⟩]⟩,
        ⟨"top", 3, "q", none, none, none, [⟨"mid", 2, "q", none, none,
          none, [⟨"leaf", 1, "q", none, none, none, []⟩]⟩]⟩,
        false, ⟨2022, 1, 1⟩, ⟨2022, 12, 31⟩, "JPY", "r"⟩]⟩
    rfl
  exact
    ⟨(hpl 0
        ⟨⟨"top", 3, "q", none, none, none, [⟨"mid", 2, "q", none, none,
           none, [⟨"leaf", 1, "q", none, none, none, []⟩]⟩]⟩,
         [],
         [⟨"top", 3, "q", none, none, none, [⟨"mid", 2, "q", none, none,
           none, [⟨"leaf", 1, "q", none, none, none, []⟩]⟩]⟩],
         ⟨"top", 3, "q", none, none, none, [⟨"mid", 2, "q", none, none,
           none, [⟨"leaf", 1, "q", none, none, none, []⟩]⟩]⟩,
         false, ⟨2022, 1, 1⟩, ⟨2022, 12, 31⟩, "JPY", "r"⟩ rfl).1,
     (hbs 0
        ⟨⟨"top", 3, "q", none, none, none, [⟨"mid", 2, "q", none, none,
           none, [⟨"leaf", 1, "q", none, none, none, []⟩]⟩]⟩,
         ⟨"top", 3, "q", none, none, none, [⟨"mid", 2, "q", none, none,
           none, [⟨"leaf", 1, "q", none, none, none, []⟩]⟩]⟩,
         ⟨"top", 3, "q", none, none, none, [⟨"mid", 2, "q", none, none,
           none, [⟨"leaf", 1, "q", none, none, none, []⟩]⟩]⟩,
         false, ⟨2022, 12, 31⟩, "JPY", "r"⟩ rfl).1,
     (hcf 0
        ⟨⟨"top", 3, "q", none, none, none, [⟨"mid", 2, "q", none, none,
           none, [⟨"leaf", 1, "q", none, none, none, []⟩]⟩]⟩,
         ⟨"top", 3, "q", none, none, none, [⟨"mid", 2, "q", none, none,
           none, [⟨"leaf", 1, "q", none, none, none, []⟩]⟩]⟩,
         ⟨"top", 3, "q", none, none, none, [⟨"mid", 2, "q", none, none,
           none, [⟨"leaf", 1, "q", none, none, none, []⟩]⟩]⟩,
         false, ⟨2022, 1, 1⟩, ⟨2022, 12, 31⟩, "JPY", "r"⟩ rfl).1⟩

end Xbrl
